import Mathlib

/-!
Verification development for the Cesium `ModelExperimentalSceneGraph`
orchestrator (Apps/CesiumViewerPointCloud/CesiumViewer.js) and
`PositionPropertyArray` (Source/DynamicScene/PositionPropertyArray.js).

The scene-graph file is embedded shallowly: the mutating JavaScript methods
become pure state-transforming functions over a `SceneGraph` record.  The
math library (Core/Matrix4.js, Core/Cartesian3.js, Core/BoundingSphere.js,
Core/Transforms.js) is not part of the excerpt, so those operations are
modelled from the spec over exact rationals; bounding-sphere radii are kept
as squared radii so that every definition stays in exact arithmetic.
Out-of-range array accesses, which would throw `TypeError` in JavaScript,
are rendered as no-ops or skips; every claim is stated under the
well-formedness hypotheses that make all accesses in range.
-/

/-- A 3-component vector with exact rational components, modelling
Core/Cartesian3.js. -/
structure Cartesian3 where
  x : ℚ
  y : ℚ
  z : ℚ
deriving DecidableEq, Repr

/-- Modelled from the spec: `Cartesian3.ZERO`. -/
def Cartesian3.ZERO : Cartesian3 := ⟨0, 0, 0⟩

/-- Modelled from the spec: `Cartesian3.fromElements`. -/
def Cartesian3.fromElements (x y z : ℚ) : Cartesian3 := ⟨x, y, z⟩

/-- Modelled from the spec: `Cartesian3.equals` (component-wise equality). -/
def Cartesian3.equals (a b : Cartesian3) : Bool := a == b

/-- Modelled from the spec: `Cartesian3.minimumByComponent`. -/
def Cartesian3.minimumByComponent (a b : Cartesian3) : Cartesian3 :=
  ⟨min a.x b.x, min a.y b.y, min a.z b.z⟩

/-- Modelled from the spec: `Cartesian3.maximumByComponent`. -/
def Cartesian3.maximumByComponent (a b : Cartesian3) : Cartesian3 :=
  ⟨max a.x b.x, max a.y b.y, max a.z b.z⟩

/-- Modelled from the spec: `Cartesian3.subtract`. -/
def Cartesian3.subtract (a b : Cartesian3) : Cartesian3 :=
  ⟨a.x - b.x, a.y - b.y, a.z - b.z⟩

/-- Modelled from the spec: `Cartesian3.midpoint` of two corners. -/
def Cartesian3.midpoint (a b : Cartesian3) : Cartesian3 :=
  ⟨(a.x + b.x) / 2, (a.y + b.y) / 2, (a.z + b.z) / 2⟩

/-- Modelled from the spec: the squared magnitude of a vector (the exact
stand-in for `Cartesian3.magnitude`, which needs a square root). -/
def Cartesian3.magnitudeSq (a : Cartesian3) : ℚ :=
  a.x * a.x + a.y * a.y + a.z * a.z

/-- A 4x4 matrix with exact rational entries, modelling Core/Matrix4.js.
Entry `mRC` is row `R`, column `C`. -/
structure Matrix4 where
  m00 : ℚ
  m01 : ℚ
  m02 : ℚ
  m03 : ℚ
  m10 : ℚ
  m11 : ℚ
  m12 : ℚ
  m13 : ℚ
  m20 : ℚ
  m21 : ℚ
  m22 : ℚ
  m23 : ℚ
  m30 : ℚ
  m31 : ℚ
  m32 : ℚ
  m33 : ℚ
deriving DecidableEq, Repr

/-- Modelled from the spec: `Matrix4.IDENTITY`. -/
def Matrix4.IDENTITY : Matrix4 :=
  ⟨1, 0, 0, 0, 0, 1, 0, 0, 0, 0, 1, 0, 0, 0, 0, 1⟩

/-- Modelled from the spec: `Matrix4.clone` (value semantics). -/
def Matrix4.clone (m : Matrix4) : Matrix4 := m

/-- Modelled from the spec: `Matrix4.multiply`, the full 4x4 product. -/
def Matrix4.multiply (a b : Matrix4) : Matrix4 where
  m00 := a.m00 * b.m00 + a.m01 * b.m10 + a.m02 * b.m20 + a.m03 * b.m30
  m01 := a.m00 * b.m01 + a.m01 * b.m11 + a.m02 * b.m21 + a.m03 * b.m31
  m02 := a.m00 * b.m02 + a.m01 * b.m12 + a.m02 * b.m22 + a.m03 * b.m32
  m03 := a.m00 * b.m03 + a.m01 * b.m13 + a.m02 * b.m23 + a.m03 * b.m33
  m10 := a.m10 * b.m00 + a.m11 * b.m10 + a.m12 * b.m20 + a.m13 * b.m30
  m11 := a.m10 * b.m01 + a.m11 * b.m11 + a.m12 * b.m21 + a.m13 * b.m31
  m12 := a.m10 * b.m02 + a.m11 * b.m12 + a.m12 * b.m22 + a.m13 * b.m32
  m13 := a.m10 * b.m03 + a.m11 * b.m13 + a.m12 * b.m23 + a.m13 * b.m33
  m20 := a.m20 * b.m00 + a.m21 * b.m10 + a.m22 * b.m20 + a.m23 * b.m30
  m21 := a.m20 * b.m01 + a.m21 * b.m11 + a.m22 * b.m21 + a.m23 * b.m31
  m22 := a.m20 * b.m02 + a.m21 * b.m12 + a.m22 * b.m22 + a.m23 * b.m32
  m23 := a.m20 * b.m03 + a.m21 * b.m13 + a.m22 * b.m23 + a.m23 * b.m33
  m30 := a.m30 * b.m00 + a.m31 * b.m10 + a.m32 * b.m20 + a.m33 * b.m30
  m31 := a.m30 * b.m01 + a.m31 * b.m11 + a.m32 * b.m21 + a.m33 * b.m31
  m32 := a.m30 * b.m02 + a.m31 * b.m12 + a.m32 * b.m22 + a.m33 * b.m32
  m33 := a.m30 * b.m03 + a.m31 * b.m13 + a.m32 * b.m23 + a.m33 * b.m33

/-- Modelled from the spec: `Matrix4.multiplyTransformation`, the product of
two affine transformations (both operands are assumed to have bottom row
`[0,0,0,1]`, and the result's bottom row is written as `[0,0,0,1]`). -/
def Matrix4.multiplyTransformation (a b : Matrix4) : Matrix4 where
  m00 := a.m00 * b.m00 + a.m01 * b.m10 + a.m02 * b.m20
  m01 := a.m00 * b.m01 + a.m01 * b.m11 + a.m02 * b.m21
  m02 := a.m00 * b.m02 + a.m01 * b.m12 + a.m02 * b.m22
  m03 := a.m00 * b.m03 + a.m01 * b.m13 + a.m02 * b.m23 + a.m03
  m10 := a.m10 * b.m00 + a.m11 * b.m10 + a.m12 * b.m20
  m11 := a.m10 * b.m01 + a.m11 * b.m11 + a.m12 * b.m21
  m12 := a.m10 * b.m02 + a.m11 * b.m12 + a.m12 * b.m22
  m13 := a.m10 * b.m03 + a.m11 * b.m13 + a.m12 * b.m23 + a.m13
  m20 := a.m20 * b.m00 + a.m21 * b.m10 + a.m22 * b.m20
  m21 := a.m20 * b.m01 + a.m21 * b.m11 + a.m22 * b.m21
  m22 := a.m20 * b.m02 + a.m21 * b.m12 + a.m22 * b.m22
  m23 := a.m20 * b.m03 + a.m21 * b.m13 + a.m22 * b.m23 + a.m23
  m30 := 0
  m31 := 0
  m32 := 0
  m33 := 1

/-- Modelled from the spec: `Matrix4.multiplyByUniformScale`, which scales
the upper-left 3x3 block (equivalently, multiplies on the right by
`diag(s, s, s, 1)`); the translation column is unchanged. -/
def Matrix4.multiplyByUniformScale (m : Matrix4) (s : ℚ) : Matrix4 :=
  { m with
    m00 := m.m00 * s, m01 := m.m01 * s, m02 := m.m02 * s
    m10 := m.m10 * s, m11 := m.m11 * s, m12 := m.m12 * s
    m20 := m.m20 * s, m21 := m.m21 * s, m22 := m.m22 * s }

/-- Modelled from the spec: `Matrix4.getTranslation`, the fourth column. -/
def Matrix4.getTranslation (m : Matrix4) : Cartesian3 :=
  ⟨m.m03, m.m13, m.m23⟩

/-- Modelled from the spec: `Matrix4.multiplyByPoint`, affine application of
the matrix to a point. -/
def Matrix4.multiplyByPoint (m : Matrix4) (c : Cartesian3) : Cartesian3 where
  x := m.m00 * c.x + m.m01 * c.y + m.m02 * c.z + m.m03
  y := m.m10 * c.x + m.m11 * c.y + m.m12 * c.z + m.m13
  z := m.m20 * c.x + m.m21 * c.y + m.m22 * c.z + m.m23

/-- Modelled from the spec: the squared maximum column scale of the upper
3x3 block, the exact stand-in for `Matrix4.getMaximumScale`. -/
def Matrix4.getMaximumScaleSq (m : Matrix4) : ℚ :=
  max (m.m00 * m.m00 + m.m10 * m.m10 + m.m20 * m.m20)
    (max (m.m01 * m.m01 + m.m11 * m.m11 + m.m21 * m.m21)
      (m.m02 * m.m02 + m.m12 * m.m12 + m.m22 * m.m22))

/-- A bounding sphere, modelling Core/BoundingSphere.js; the radius is kept
squared so every operation stays in exact rational arithmetic. -/
structure BoundingSphere where
  center : Cartesian3
  radiusSq : ℚ
deriving DecidableEq, Repr

/-- Modelled from the spec: `BoundingSphere.clone` (value semantics). -/
def BoundingSphere.clone (b : BoundingSphere) : BoundingSphere := b

/-- Modelled from the spec: `BoundingSphere.fromCornerPoints` — the center is
the corner midpoint, and the (squared) radius is the (squared) distance from
the center to a corner. -/
def BoundingSphere.fromCornerPoints (corner oppositeCorner : Cartesian3) :
    BoundingSphere where
  center := Cartesian3.midpoint corner oppositeCorner
  radiusSq :=
    Cartesian3.magnitudeSq
      (Cartesian3.subtract oppositeCorner
        (Cartesian3.midpoint corner oppositeCorner))

/-- Modelled from the spec: `BoundingSphere.transformWithoutScale` — the
center is moved by the matrix, the radius is unchanged. -/
def BoundingSphere.transformWithoutScale (b : BoundingSphere) (m : Matrix4) :
    BoundingSphere where
  center := Matrix4.multiplyByPoint m b.center
  radiusSq := b.radiusSq

/-- Modelled from the spec: `BoundingSphere.transform` — the center is moved
by the matrix and the radius is scaled by the matrix's maximum scale
(squared radius by the squared maximum scale). -/
def BoundingSphere.transform (b : BoundingSphere) (m : Matrix4) :
    BoundingSphere where
  center := Matrix4.multiplyByPoint m b.center
  radiusSq := b.radiusSq * Matrix4.getMaximumScaleSq m

/-- The scene-mode enumeration from Scene/SceneMode.js (external). -/
inductive SceneMode where
  | MORPHING
  | COLUMBUS_VIEW
  | SCENE2D
  | SCENE3D
deriving DecidableEq, Repr

/-- The split-direction enumeration from Scene/SplitDirection.js
(external). -/
inductive SplitDirection where
  | LEFT
  | NONE
  | RIGHT
deriving DecidableEq, Repr

/-- The shadow-mode enumeration from Scene/ShadowMode.js (external). -/
inductive ShadowMode where
  | DISABLED
  | ENABLED
  | CAST_ONLY
  | RECEIVE_ONLY
deriving DecidableEq, Repr

/-- The reference-frame enumeration from Core/ReferenceFrame.js
(external). -/
inductive ReferenceFrame where
  | FIXED
  | INERTIAL
deriving DecidableEq, Repr

/-- Time instants for the property system, modelling JulianDate values. -/
abbrev JulianDate : Type := ℚ

/-- An item of a `PositionPropertyArray`: an external PositionProperty
instance, modelled by its `isConstant` flag and its
`getValueInReferenceFrame` behaviour (which may produce `undefined`,
rendered as `none`). -/
structure SubPositionProperty where
  isConstant : Bool
  valueInReferenceFrame : JulianDate → ReferenceFrame → Option Cartesian3

/-- State of a `PositionPropertyArray` (Source/DynamicScene/
PositionPropertyArray.js).  The event plumbing is modelled by counters: the
number of subscriptions held by the event helper and the number of times
`definitionChanged` has been raised. -/
structure PositionPropertyArray where
  _value : Option (List (Option SubPositionProperty))
  _length : Nat
  _referenceFrame : ReferenceFrame
  _subscriptions : Nat
  _raisedCount : Nat

/-- `PositionPropertyArray.prototype.setValue`: removes all subscriptions,
then either copies the array (subscribing to each defined item's
`definitionChanged`) or clears the value, and finally raises
`definitionChanged`. -/
def PositionPropertyArray.setValue (p : PositionPropertyArray)
    (value : Option (List (Option SubPositionProperty))) :
    PositionPropertyArray :=
  match value with
  | some v =>
      { p with
        _value := some v
        _length := v.length
        _subscriptions := (v.filter Option.isSome).length
        _raisedCount := p._raisedCount + 1 }
  | none =>
      { p with
        _value := none
        _length := 0
        _subscriptions := 0
        _raisedCount := p._raisedCount + 1 }

/-- The `PositionPropertyArray` constructor: fields are initialized and then
`setValue(value)` is called. -/
def mkPositionPropertyArray
    (value : Option (List (Option SubPositionProperty)))
    (referenceFrame : Option ReferenceFrame) : PositionPropertyArray :=
  PositionPropertyArray.setValue
    { _value := none
      _length := 0
      _referenceFrame := referenceFrame.getD ReferenceFrame.FIXED
      _subscriptions := 0
      _raisedCount := 0 }
    value

/-- `PositionPropertyArray.prototype.getValueInReferenceFrame`.  The debug
`DeveloperError` throws for an undefined `time` or `referenceFrame` are
rendered as `Except.error`; a JavaScript `undefined` return value is
`Except.ok none`.  The optional `result` parameter is scratch storage whose
entries are passed to the item properties; since the items are modelled as
pure functions, the produced list does not depend on it. -/
def PositionPropertyArray.getValueInReferenceFrame (p : PositionPropertyArray)
    (time : Option JulianDate) (referenceFrame : Option ReferenceFrame)
    (result : Option (List (Option Cartesian3))) :
    Except String (Option (List (Option Cartesian3))) :=
  match time with
  | none => Except.error "time is required."
  | some t =>
    match referenceFrame with
    | none => Except.error "referenceFrame is required."
    | some frame =>
      match p._value with
      | none => Except.ok none
      | some value =>
        Except.ok (some ((List.range p._length).map (fun i =>
          match value[i]? with
          | some (some property) =>
              property.valueInReferenceFrame t frame
          | _ => none)))

/-- `PositionPropertyArray.prototype.getValue`: delegates to
`getValueInReferenceFrame` with the FIXED frame. -/
def PositionPropertyArray.getValue (p : PositionPropertyArray)
    (time : Option JulianDate)
    (result : Option (List (Option Cartesian3))) :
    Except String (Option (List (Option Cartesian3))) :=
  p.getValueInReferenceFrame time (some ReferenceFrame.FIXED) result

/-- The axis enumeration from Scene/Axis.js (external). -/
inductive Axis where
  | X
  | Y
  | Z
deriving DecidableEq, Repr

/-- A mesh primitive of the parsed model components.  The excerpt treats
primitives opaquely except for the position extrema consumed by the
primitive render resources, so only those are modelled. -/
structure SourcePrimitive where
  positionMin : Cartesian3
  positionMax : Cartesian3
deriving DecidableEq, Repr

/-- A node of the parsed model components (ModelComponents.Node): an index,
local transform fields, a child list by value, mesh primitives, and an
optional skin.  The source reads `node.skin.index`; the skin reference is
modelled by that index directly.  The local transform fields
(translation/rotation/scale or matrix) are modelled as one precomposed
matrix, which is what `ModelExperimentalUtility.getNodeTransform`
produces. -/
inductive SourceNode : Type where
  | mk (index : Nat) (transform : Matrix4) (children : List SourceNode)
      (primitives : List SourcePrimitive) (skin : Option Nat)

mutual

/-- Decidable equality for source nodes (written by hand because automatic
derivation does not handle the nested child list). -/
def SourceNode.decEq : (a b : SourceNode) → Decidable (a = b)
  | SourceNode.mk i1 t1 c1 p1 s1, SourceNode.mk i2 t2 c2 p2 s2 =>
    if hi : i1 = i2 then
      if ht : t1 = t2 then
        match SourceNode.decEqList c1 c2 with
        | isTrue hc =>
          if hp : p1 = p2 then
            if hs : s1 = s2 then
              isTrue (by rw [hi, ht, hc, hp, hs])
            else isFalse (by intro h; injection h; contradiction)
          else isFalse (by intro h; injection h; contradiction)
        | isFalse hc => isFalse (by intro h; injection h; contradiction)
      else isFalse (by intro h; injection h; contradiction)
    else isFalse (by intro h; injection h; contradiction)

/-- Decidable equality for lists of source nodes. -/
def SourceNode.decEqList : (a b : List SourceNode) → Decidable (a = b)
  | [], [] => isTrue rfl
  | [], _ :: _ => isFalse (by intro h; exact List.noConfusion h)
  | _ :: _, [] => isFalse (by intro h; exact List.noConfusion h)
  | x :: xs, y :: ys =>
    match SourceNode.decEq x y with
    | isTrue h1 =>
      match SourceNode.decEqList xs ys with
      | isTrue h2 => isTrue (by rw [h1, h2])
      | isFalse h2 => isFalse (by intro h; injection h; contradiction)
    | isFalse h1 => isFalse (by intro h; injection h; contradiction)

end

instance : DecidableEq SourceNode := SourceNode.decEq

/-- The declared index of a source node. -/
def SourceNode.index : SourceNode → Nat
  | SourceNode.mk i _ _ _ _ => i

/-- The local transform of a source node. -/
def SourceNode.transform : SourceNode → Matrix4
  | SourceNode.mk _ t _ _ _ => t

/-- The children of a source node. -/
def SourceNode.children : SourceNode → List SourceNode
  | SourceNode.mk _ _ c _ _ => c

/-- The mesh primitives of a source node. -/
def SourceNode.primitives : SourceNode → List SourcePrimitive
  | SourceNode.mk _ _ _ p _ => p

/-- The skin index of a source node, when the node declares a skin. -/
def SourceNode.skin : SourceNode → Option Nat
  | SourceNode.mk _ _ _ _ s => s

/-- Modelled from the spec: `ModelExperimentalUtility.getNodeTransform`
computes the node's local transform matrix from its transform fields. -/
def getNodeTransform (node : SourceNode) : Matrix4 :=
  node.transform

/-- A skin of the parsed model components: its index in the skin list and
its joint node indices. -/
structure Skin where
  index : Nat
  joints : List Nat
deriving DecidableEq, Repr

/-- The scene entry of the model components, holding the declared root
nodes. -/
structure SceneComponent where
  nodes : List SourceNode
deriving DecidableEq

/-- The parsed model components (ModelComponents, external input): the full
node list, the scene with its root nodes, the skins, the declared axes and
the model-declared static transform. -/
structure Components where
  nodes : List SourceNode
  scene : SceneComponent
  skins : List Skin
  upAxis : Axis
  forwardAxis : Axis
  transform : Matrix4
deriving DecidableEq

/-- A color override value (Core/Color.js, external); only its presence
matters to the scene graph. -/
structure Color where
  red : ℚ
  green : ℚ
  blue : ℚ
  alpha : ℚ
deriving DecidableEq, Repr

/-- The image-based-lighting settings object of the model (external); the
scene graph reads only its `enabled` flag. -/
structure ImageBasedLighting where
  enabled : Bool
deriving DecidableEq, Repr

/-- The owning ModelExperimental object (external collaborator), reduced to
the fields and method results the scene graph reads or writes.  The
bounding-sphere radius fields are kept squared, matching the squared-radius
`BoundingSphere` model. -/
structure Model where
  modelMatrix : Matrix4
  computedScale : ℚ
  color : Option Color
  imageBasedLighting : ImageBasedLighting
  clippingPlanesEnabled : Bool
  splitDirection : Option SplitDirection
  _projectTo2D : Bool
  backFaceCulling : Bool
  shadows : ShadowMode
  debugShowBoundingVolume : Bool
  statistics : Nat
  _boundingSphere : Option BoundingSphere
  _initialRadiusSq : ℚ
  _clampedScale : ℚ
deriving DecidableEq, Repr

/-- Modelled from the spec: `ModelExperimental.prototype.isClippingEnabled`,
whether clipping is active on the model. -/
def Model.isClippingEnabled (model : Model) : Bool :=
  model.clippingPlanesEnabled

/-- The model-level pipeline stages pushed by `configurePipeline`; each
stands for the external stage object of the same name. -/
inductive PipelineStage where
  | ModelColorPipelineStage
  | ImageBasedLightingPipelineStage
  | ModelClippingPlanesPipelineStage
  | ModelSplitterPipelineStage
deriving DecidableEq, Repr

/-- A draw command produced by `buildDrawCommand` (external), reduced to the
settings the scene graph broadcasts to it. -/
structure DrawCommand where
  backFaceCulling : Bool
  shadows : ShadowMode
  debugShowBoundingVolume : Bool
deriving DecidableEq, Repr

/-- Modelled from the spec: `buildDrawCommand` assembles a draw command for
a primitive from the prepared render resources; the broadcastable settings
are seeded from the model. -/
def buildDrawCommand (model : Model) : DrawCommand where
  backFaceCulling := model.backFaceCulling
  shadows := model.shadows
  debugShowBoundingVolume := model.debugShowBoundingVolume

/-- A runtime primitive (ModelExperimentalPrimitive, external class):
wraps one source primitive and owns one draw command, one bounding sphere
and its update-stage list.  Stages are referenced by numeric identifier. -/
structure RuntimePrimitive where
  primitive : SourcePrimitive
  boundingSphere : Option BoundingSphere
  drawCommand : Option DrawCommand
  updateStages : List Nat
deriving DecidableEq, Repr

/-- Modelled from the spec: the `ModelExperimentalPrimitive` constructor
wraps the source primitive; the draw command and bounding sphere are
produced later by `buildDrawCommands`, and the primitive owns a fixed
update-stage list. -/
def mkModelExperimentalPrimitive (primitive : SourcePrimitive) :
    RuntimePrimitive where
  primitive := primitive
  boundingSphere := none
  drawCommand := none
  updateStages := [0]

/-- A runtime node (ModelExperimentalNode, external class): wraps one
source node with its local transform, its transform to root, child indices
into the shared runtime-node array, owned runtime primitives, the transform
dirty flag, an optional runtime-skin index, a counter of joint-matrix
recomputations (the observable effect of the external
`updateJointMatrices`), and its update-stage list. -/
structure RuntimeNode where
  node : SourceNode
  transform : Matrix4
  transformToRoot : Matrix4
  children : List Nat
  runtimePrimitives : List RuntimePrimitive
  _transformDirty : Bool
  _runtimeSkin : Option Nat
  jointMatrixUpdateCount : Nat
  updateStages : List Nat
deriving DecidableEq

/-- Modelled from the spec: the `ModelExperimentalNode` constructor. -/
def mkModelExperimentalNode (node : SourceNode) (transform : Matrix4)
    (transformToRoot : Matrix4) (children : List Nat) : RuntimeNode where
  node := node
  transform := transform
  transformToRoot := transformToRoot
  children := children
  runtimePrimitives := []
  _transformDirty := false
  _runtimeSkin := none
  jointMatrixUpdateCount := 0
  updateStages := [0]

/-- Modelled from the spec: `ModelExperimentalNode`'s computed transform,
the node's accumulated transform (transform to root composed with the local
transform). -/
def RuntimeNode.computedTransform (runtimeNode : RuntimeNode) : Matrix4 :=
  Matrix4.multiplyTransformation runtimeNode.transformToRoot
    runtimeNode.transform

/-- Modelled from the spec: `ModelExperimentalNode.prototype.
updateJointMatrices` recomputes the node's joint matrices; the observable
effect kept by the model is the recomputation counter. -/
def RuntimeNode.updateJointMatrices (runtimeNode : RuntimeNode) :
    RuntimeNode :=
  { runtimeNode with
    jointMatrixUpdateCount := runtimeNode.jointMatrixUpdateCount + 1 }

/-- A runtime skin (ModelExperimentalSkin, external class), wrapping one
source skin. -/
structure RuntimeSkin where
  skin : Skin
deriving DecidableEq, Repr

/-- Modelled from the spec: the `ModelExperimentalSkin` constructor. -/
def mkModelExperimentalSkin (skin : Skin) : RuntimeSkin where
  skin := skin

/-- The map projection of the frame state (external).  The source applies
`Transforms.basisTo2D(mapProjection, matrix)` and
`Transforms.wgs84To2DModelMatrix(mapProjection, center)`; those external
functions are modelled as fields of the projection they are indexed by. -/
structure MapProjection where
  basisTo2D : Matrix4 → Matrix4
  wgs84To2DModelMatrix : Cartesian3 → Matrix4

/-- The per-frame state supplied by the rendering loop (external): the
active scene mode and the map projection. -/
structure FrameState where
  mode : SceneMode
  mapProjection : MapProjection

/-- The scene-graph state (`ModelExperimentalSceneGraph`): every `this._x`
field of the source constructor becomes a field here.  Fields the source
initializes to `undefined` are `Option`s. -/
structure SceneGraph where
  _model : Model
  _components : Components
  _pipelineStages : List Nat
  _updateStages : List Nat
  _runtimeNodes : List (Option RuntimeNode)
  _rootNodes : List Nat
  _skinnedNodes : List Nat
  _runtimeSkins : List RuntimeSkin
  modelPipelineStages : List PipelineStage
  _boundingSphere : Option BoundingSphere
  _boundingSphere2D : Option BoundingSphere
  _computedModelMatrix : Matrix4
  _computedModelMatrix2D : Matrix4
  _axisCorrectionMatrix : Matrix4

/-- Modelled from the spec: the fixed change-of-axes matrix sending y-up to
z-up (a rotation about the x-axis). -/
def Y_UP_TO_Z_UP : Matrix4 :=
  ⟨1, 0, 0, 0, 0, 0, -1, 0, 0, 1, 0, 0, 0, 0, 0, 1⟩

/-- Modelled from the spec: the fixed change-of-axes matrix sending x-up to
z-up (a rotation about the y-axis). -/
def X_UP_TO_Z_UP : Matrix4 :=
  ⟨0, 0, 1, 0, 0, 1, 0, 0, -1, 0, 0, 0, 0, 0, 0, 1⟩

/-- Modelled from the spec: the fixed change-of-axes matrix sending z-up to
x-up (a rotation about the y-axis). -/
def Z_UP_TO_X_UP : Matrix4 :=
  ⟨0, 0, -1, 0, 0, 1, 0, 0, 1, 0, 0, 0, 0, 0, 0, 1⟩

/-- Modelled from the spec:
`ModelExperimentalUtility.getAxisCorrectionMatrix` — the fixed matrix,
chosen at load time from the declared up and forward axes, that corrects
the model into the engine's canonical axis convention. -/
def getAxisCorrectionMatrix (upAxis : Axis) (forwardAxis : Axis) : Matrix4 :=
  let result :=
    if upAxis = Axis.Y then Y_UP_TO_Z_UP
    else if upAxis = Axis.X then X_UP_TO_Z_UP
    else Matrix4.IDENTITY
  if forwardAxis = Axis.X then
    Matrix4.multiplyTransformation result Z_UP_TO_X_UP
  else result

/-- The `computeModelMatrix` helper of the source: composes, in this order,
the supplied placement matrix, the components' static transform, the axis
correction matrix, and the model's uniform computed scale, storing the
result in `_computedModelMatrix`. -/
def computeModelMatrix (sceneGraph : SceneGraph) (modelMatrix : Matrix4) :
    SceneGraph :=
  let components := sceneGraph._components
  let model := sceneGraph._model
  let m1 := Matrix4.multiplyTransformation modelMatrix components.transform
  let m2 := Matrix4.multiplyTransformation m1 sceneGraph._axisCorrectionMatrix
  let m3 := Matrix4.multiplyByUniformScale m2 model.computedScale
  { sceneGraph with _computedModelMatrix := m3 }

/-- The `computeModelMatrix2D` helper of the source: if the translation of
the computed model matrix is not exactly zero, the general basis-to-2D
conversion is applied to it; otherwise the wgs84-to-2D matrix derived from
the bounding-sphere center is multiplied with it.  The 2D bounding sphere
is then refreshed.  In JavaScript, reading `boundingSphere.center` with the
sphere still undefined would throw; that read is modelled with a degenerate
default, and every claim about this path assumes the sphere is defined. -/
def computeModelMatrix2D (sceneGraph : SceneGraph) (frameState : FrameState) :
    SceneGraph :=
  let computedModelMatrix := sceneGraph._computedModelMatrix
  let translation := Matrix4.getTranslation computedModelMatrix
  let m2D :=
    if ¬ (Cartesian3.equals translation Cartesian3.ZERO = true) then
      frameState.mapProjection.basisTo2D computedModelMatrix
    else
      let center :=
        (sceneGraph._boundingSphere.getD ⟨Cartesian3.ZERO, 0⟩).center
      let to2D := frameState.mapProjection.wgs84To2DModelMatrix center
      Matrix4.multiply to2D computedModelMatrix
  { sceneGraph with
    _computedModelMatrix2D := m2D
    _boundingSphere2D :=
      sceneGraph._boundingSphere.map (fun b => BoundingSphere.transform b m2D) }

mutual

/-- The recursive `traverseSceneGraph` helper of the source: depth-first
post-order traversal.  Children are processed first (each child receives
the accumulated transform composed with this node's local transform — the
source computes that same matrix inside the loop for every child), then the
runtime node is constructed with the collected child indices and one
runtime primitive per mesh primitive, stored into the runtime-node array at
the node's declared index, and recorded in the skinned-node list when the
node declares a skin.  Returns the updated state and the node's index. -/
def traverseSceneGraph (sceneGraph : SceneGraph) (node : SourceNode)
    (transformToRoot : Matrix4) : SceneGraph × Nat :=
  match node with
  | SourceNode.mk idx tr ch prims skin =>
    let transform := getNodeTransform (SourceNode.mk idx tr ch prims skin)
    let childNodeTransformToRoot :=
      Matrix4.multiplyTransformation transformToRoot transform
    let traversed := traverseChildrenNodes sceneGraph ch childNodeTransformToRoot
    let runtimeNode :=
      mkModelExperimentalNode (SourceNode.mk idx tr ch prims skin) transform
        transformToRoot traversed.2
    let runtimeNode :=
      { runtimeNode with
        runtimePrimitives := prims.map mkModelExperimentalPrimitive }
    let sg :=
      { traversed.1 with
        _runtimeNodes := traversed.1._runtimeNodes.set idx (some runtimeNode)
        _skinnedNodes :=
          if skin.isSome then traversed.1._skinnedNodes ++ [idx]
          else traversed.1._skinnedNodes }
    (sg, idx)

/-- The child loop of `traverseSceneGraph`: traverses each child in order,
threading the state and collecting the children's indices. -/
def traverseChildrenNodes (sceneGraph : SceneGraph)
    (nodes : List SourceNode) (transformToRoot : Matrix4) :
    SceneGraph × List Nat :=
  match nodes with
  | [] => (sceneGraph, [])
  | childNode :: rest =>
    let r1 := traverseSceneGraph sceneGraph childNode transformToRoot
    let r2 := traverseChildrenNodes r1.1 rest transformToRoot
    (r2.1, r1.2 :: r2.2)

end

mutual

/-- All nodes of a subtree in depth-first post-order (children first, then
the node itself) — the order in which `traverseSceneGraph` stores them. -/
def subtreeNodes : SourceNode → List SourceNode
  | SourceNode.mk i t c p s =>
    subtreeNodesList c ++ [SourceNode.mk i t c p s]

/-- All nodes of a forest in depth-first post-order. -/
def subtreeNodesList : List SourceNode → List SourceNode
  | [] => []
  | n :: ns => subtreeNodes n ++ subtreeNodesList ns

end

/-- The root loop of `initialize`: traverses the scene graph from each
declared root with the identity transform, pushing each returned root index
onto `_rootNodes`. -/
def initializeRootNodes (sceneGraph : SceneGraph)
    (rootNodes : List SourceNode) : SceneGraph :=
  match rootNodes with
  | [] => sceneGraph
  | rootNode :: rest =>
    let r := traverseSceneGraph sceneGraph rootNode Matrix4.IDENTITY
    initializeRootNodes
      { r.1 with _rootNodes := r.1._rootNodes ++ [r.2] } rest

/-- One step of the skin-resolution pass of `initialize`: the runtime node
at a skinned-node index receives (the index of) its runtime skin, found via
the corresponding source node's skin index, and has its joint matrices
computed.  Entries that would be `undefined` in JavaScript are skipped. -/
def resolveSkinnedNode (sceneGraph : SceneGraph)
    (skinnedNodeIndex : Nat) : SceneGraph :=
  match sceneGraph._runtimeNodes[skinnedNodeIndex]? with
  | some (some skinnedNode) =>
    match (sceneGraph._components.nodes[skinnedNodeIndex]?).bind
        SourceNode.skin with
    | some skinIndex =>
      { sceneGraph with
        _runtimeNodes :=
          sceneGraph._runtimeNodes.set skinnedNodeIndex
            (some (RuntimeNode.updateJointMatrices
              { skinnedNode with _runtimeSkin := some skinIndex })) }
    | none => sceneGraph
  | _ => sceneGraph

/-- The `initialize` helper of the source (renamed here because that word
is a keyword in Lean): computes the model matrix, allocates the
runtime-node array at the source node count, traverses the declared roots,
creates the runtime skins, and resolves the skinned nodes. -/
def initializeSceneGraph (sceneGraph : SceneGraph) : SceneGraph :=
  let components := sceneGraph._components
  let scene := components.scene
  let sg := computeModelMatrix sceneGraph sceneGraph._model.modelMatrix
  let nodesLength := components.nodes.length
  let sg := { sg with _runtimeNodes := List.replicate nodesLength none }
  let sg := initializeRootNodes sg scene.nodes
  let sg :=
    { sg with
      _runtimeSkins :=
        sg._runtimeSkins ++ components.skins.map mkModelExperimentalSkin }
  sg._skinnedNodes.foldl resolveSkinnedNode sg

/-- The constructor options object of `ModelExperimentalSceneGraph`. -/
structure SceneGraphOptions where
  model : Option Model
  modelComponents : Option Components

/-- Modelled from the spec: `defaultValue.EMPTY_OBJECT` viewed as a
constructor options object (neither field present). -/
def SceneGraphOptions.EMPTY_OBJECT : SceneGraphOptions :=
  ⟨none, none⟩

/-- The `ModelExperimentalSceneGraph` constructor: defaults the options
object, performs the debug precondition checks on `options.model` and
`options.modelComponents` (a `DeveloperError` throw is `Except.error`),
initializes every field, and runs `initialize`. -/
def mkModelExperimentalSceneGraph (options : Option SceneGraphOptions) :
    Except String SceneGraph :=
  let opts := options.getD SceneGraphOptions.EMPTY_OBJECT
  let components := opts.modelComponents
  match opts.model with
  | none => Except.error "Expected options.model to be typeof object"
  | some model =>
    match components with
    | none => Except.error "Expected options.modelComponents to be typeof object"
    | some comps =>
      Except.ok (initializeSceneGraph
        { _model := model
          _components := comps
          _pipelineStages := []
          _updateStages := []
          _runtimeNodes := []
          _rootNodes := []
          _skinnedNodes := []
          _runtimeSkins := []
          modelPipelineStages := []
          _boundingSphere := none
          _boundingSphere2D := none
          _computedModelMatrix := Matrix4.clone Matrix4.IDENTITY
          _computedModelMatrix2D := Matrix4.clone Matrix4.IDENTITY
          _axisCorrectionMatrix :=
            getAxisCorrectionMatrix comps.upAxis comps.forwardAxis })

/-- `ModelExperimentalSceneGraph.prototype.configurePipeline`: resets the
model-level stage list, then pushes the color stage iff a color override is
set, the image-based-lighting stage iff that feature is enabled, the
clipping-planes stage iff clipping is active, and the splitter stage iff a
non-default split direction is set — in that order. -/
def SceneGraph.configurePipeline (sceneGraph : SceneGraph) : SceneGraph :=
  let model := sceneGraph._model
  let modelPipelineStages : List PipelineStage := []
  let modelPipelineStages :=
    if model.color.isSome then
      modelPipelineStages ++ [PipelineStage.ModelColorPipelineStage]
    else modelPipelineStages
  let modelPipelineStages :=
    if model.imageBasedLighting.enabled then
      modelPipelineStages ++ [PipelineStage.ImageBasedLightingPipelineStage]
    else modelPipelineStages
  let modelPipelineStages :=
    if model.isClippingEnabled then
      modelPipelineStages ++ [PipelineStage.ModelClippingPlanesPipelineStage]
    else modelPipelineStages
  let modelPipelineStages :=
    match model.splitDirection with
    | some direction =>
      if direction ≠ SplitDirection.NONE then
        modelPipelineStages ++ [PipelineStage.ModelSplitterPipelineStage]
      else modelPipelineStages
    | none => modelPipelineStages
  { sceneGraph with modelPipelineStages := modelPipelineStages }

/-- An observable call made during the per-frame `update` pass: a node
update-stage run, a joint-matrix recomputation for one skinned node, or a
primitive update-stage run. -/
inductive UpdateEvent where
  | nodeStage (nodeIndex : Nat) (stage : Nat)
  | jointMatrixUpdate (nodeIndex : Nat)
  | primitiveStage (nodeIndex : Nat) (primitiveIndex : Nat) (stage : Nat)
deriving DecidableEq, Repr

/-- `ModelExperimentalSceneGraph.prototype.updateJointMatrices`, rendered as
the list of joint-matrix recomputations it performs: one per skinned-node
index, in list order. -/
def SceneGraph.updateJointMatrices (sceneGraph : SceneGraph) :
    List UpdateEvent :=
  sceneGraph._skinnedNodes.map (fun nodeIndex =>
    UpdateEvent.jointMatrixUpdate nodeIndex)

/-- `ModelExperimentalSceneGraph.prototype.update`, rendered as the ordered
list of calls it makes: for each runtime node in array order, its node
update-stages run; then, unless animations are disabled (non-3D scene mode
with 2D projection forced) or the animation flag is off, `this.
updateJointMatrices()` runs; then each owned primitive's update-stages run.
Array entries that would be `undefined` in JavaScript contribute
nothing. -/
def SceneGraph.update (sceneGraph : SceneGraph) (frameState : FrameState)
    (updateForAnimations : Bool) : List UpdateEvent :=
  (List.range sceneGraph._runtimeNodes.length).flatMap (fun i =>
    match sceneGraph._runtimeNodes[i]? with
    | some (some runtimeNode) =>
      runtimeNode.updateStages.map (fun s => UpdateEvent.nodeStage i s)
        ++ (if updateForAnimations = true ∧
              ¬(frameState.mode ≠ SceneMode.SCENE3D ∧
                sceneGraph._model._projectTo2D = true) then
              sceneGraph.updateJointMatrices
            else [])
        ++ (List.range runtimeNode.runtimePrimitives.length).flatMap
            (fun j =>
              match runtimeNode.runtimePrimitives[j]? with
              | some runtimePrimitive =>
                runtimePrimitive.updateStages.map (fun s =>
                  UpdateEvent.primitiveStage i j s)
              | none => [])
    | _ => [])

/-- The root-marking step of `updateModelMatrix`: the runtime node at a
root index has its transform-dirty flag set. -/
def markRootNodeDirty (runtimeNodes : List (Option RuntimeNode))
    (index : Nat) : List (Option RuntimeNode) :=
  match runtimeNodes[index]? with
  | some (some node) =>
    runtimeNodes.set index (some { node with _transformDirty := true })
  | _ => runtimeNodes

/-- `ModelExperimentalSceneGraph.prototype.updateModelMatrix`: recomputes
the composed model matrix from the new placement matrix, recomputes the 2D
composed matrix when the frame state's mode is not the default 3D mode, and
marks every runtime node listed in `_rootNodes` transform-dirty. -/
def SceneGraph.updateModelMatrix (sceneGraph : SceneGraph)
    (modelMatrix : Matrix4) (frameState : FrameState) : SceneGraph :=
  let sg := computeModelMatrix sceneGraph modelMatrix
  let sg :=
    if frameState.mode ≠ SceneMode.SCENE3D then
      computeModelMatrix2D sg frameState
    else sg
  { sg with
    _runtimeNodes := sg._rootNodes.foldl markRootNodeDirty sg._runtimeNodes }

/-- The `forEachRuntimePrimitive` helper: applies the callback to every
runtime primitive of every runtime node, in node-array order. -/
def forEachRuntimePrimitive (sceneGraph : SceneGraph)
    (callback : RuntimePrimitive → RuntimePrimitive) : SceneGraph :=
  { sceneGraph with
    _runtimeNodes :=
      sceneGraph._runtimeNodes.map (fun entry =>
        entry.map (fun runtimeNode =>
          { runtimeNode with
            runtimePrimitives :=
              runtimeNode.runtimePrimitives.map callback })) }

/-- `ModelExperimentalSceneGraph.prototype.updateBackFaceCulling`: writes
the back-face-culling setting into every runtime primitive's draw
command. -/
def SceneGraph.updateBackFaceCulling (sceneGraph : SceneGraph)
    (backFaceCulling : Bool) : SceneGraph :=
  forEachRuntimePrimitive sceneGraph (fun runtimePrimitive =>
    { runtimePrimitive with
      drawCommand := runtimePrimitive.drawCommand.map (fun drawCommand =>
        { drawCommand with backFaceCulling := backFaceCulling }) })

/-- `ModelExperimentalSceneGraph.prototype.updateShadows`: writes the shadow
settings into every runtime primitive's draw command. -/
def SceneGraph.updateShadows (sceneGraph : SceneGraph)
    (shadowMode : ShadowMode) : SceneGraph :=
  forEachRuntimePrimitive sceneGraph (fun runtimePrimitive =>
    { runtimePrimitive with
      drawCommand := runtimePrimitive.drawCommand.map (fun drawCommand =>
        { drawCommand with shadows := shadowMode }) })

/-- `ModelExperimentalSceneGraph.prototype.updateShowBoundingVolume`: writes
the debug-bounding-volume setting into every runtime primitive's draw
command. -/
def SceneGraph.updateShowBoundingVolume (sceneGraph : SceneGraph)
    (debugShowBoundingVolume : Bool) : SceneGraph :=
  forEachRuntimePrimitive sceneGraph (fun runtimePrimitive =>
    { runtimePrimitive with
      drawCommand := runtimePrimitive.drawCommand.map (fun drawCommand =>
        { drawCommand with
          debugShowBoundingVolume := debugShowBoundingVolume }) })

/-- The JavaScript `Number.MAX_VALUE` sentinel, as an exact rational. -/
def NUMBER_MAX_VALUE : ℚ := 17976931348623157 * 10 ^ 292

/-- The render resources prepared for one primitive (PrimitiveRenderResources,
external class).  Modelled from the spec: the position extrema come from the
source primitive, and the primitive's bounding sphere is derived from that
corner box. -/
structure PrimitiveRenderResources where
  positionMin : Cartesian3
  positionMax : Cartesian3
  boundingSphere : BoundingSphere
deriving DecidableEq, Repr

/-- Modelled from the spec: the primitive render resources produced by the
primitive-level pipeline stages for one runtime primitive. -/
def mkPrimitiveRenderResources (runtimePrimitive : RuntimePrimitive) :
    PrimitiveRenderResources where
  positionMin := runtimePrimitive.primitive.positionMin
  positionMax := runtimePrimitive.primitive.positionMax
  boundingSphere :=
    BoundingSphere.fromCornerPoints runtimePrimitive.primitive.positionMin
      runtimePrimitive.primitive.positionMax

/-- The per-primitive body of the `buildDrawCommands` loops: primitive
render resources are prepared (the primitive-level pipeline stages act on
external GPU resources), the primitive's bounding sphere is cloned from
them, the model-space min/max corner pair is merged with the primitive's
extrema transformed by the node's computed transform, and the built draw
command is stored on the primitive. -/
def processRuntimePrimitive (model : Model) (nodeTransform : Matrix4)
    (corners : Cartesian3 × Cartesian3)
    (runtimePrimitive : RuntimePrimitive) :
    (Cartesian3 × Cartesian3) × RuntimePrimitive :=
  let primitiveRenderResources := mkPrimitiveRenderResources runtimePrimitive
  let primitivePositionMin :=
    Matrix4.multiplyByPoint nodeTransform primitiveRenderResources.positionMin
  let primitivePositionMax :=
    Matrix4.multiplyByPoint nodeTransform primitiveRenderResources.positionMax
  ((Cartesian3.minimumByComponent corners.1 primitivePositionMin,
    Cartesian3.maximumByComponent corners.2 primitivePositionMax),
    { runtimePrimitive with
      boundingSphere :=
        some (BoundingSphere.clone primitiveRenderResources.boundingSphere)
      drawCommand := some (buildDrawCommand model) })

/-- The inner primitive loop of `buildDrawCommands` over one node's runtime
primitives, threading the min/max corner pair. -/
def processRuntimePrimitives (model : Model) (nodeTransform : Matrix4)
    (corners : Cartesian3 × Cartesian3) :
    List RuntimePrimitive → (Cartesian3 × Cartesian3) × List RuntimePrimitive
  | [] => (corners, [])
  | runtimePrimitive :: rest =>
    let r := processRuntimePrimitive model nodeTransform corners
      runtimePrimitive
    let rr := processRuntimePrimitives model nodeTransform r.1 rest
    (rr.1, r.2 :: rr.2)

/-- The outer node loop of `buildDrawCommands`: for each runtime node in
array order, the node-level pipeline stages act on external render
resources, and the node's primitives are processed with the node's computed
transform.  Array entries that would be `undefined` in JavaScript are
passed through. -/
def processRuntimeNodes (model : Model) (corners : Cartesian3 × Cartesian3) :
    List (Option RuntimeNode) →
      (Cartesian3 × Cartesian3) × List (Option RuntimeNode)
  | [] => (corners, [])
  | none :: rest =>
    let rr := processRuntimeNodes model corners rest
    (rr.1, none :: rr.2)
  | some runtimeNode :: rest =>
    let nodeTransform := runtimeNode.computedTransform
    let r := processRuntimePrimitives model nodeTransform corners
      runtimeNode.runtimePrimitives
    let rr := processRuntimeNodes model r.1 rest
    (rr.1, some { runtimeNode with runtimePrimitives := r.2 } :: rr.2)

/-- `ModelExperimentalSceneGraph.prototype.buildDrawCommands`: resets the
model statistics, reconfigures the model pipeline (whose stages act on
external render resources), initializes the min/max corner pair to the
`Number.MAX_VALUE` sentinels, runs the node and primitive loops, derives the
scene graph's model-space bounding sphere from the corner pair and
axis-corrects it, and derives the model's world-space bounding sphere,
retaining the initial (pre-scale) radius and scaling the radius by the
clamped scale.  (Radii are squared throughout, so the radius scaling is by
the squared clamped scale.) -/
def SceneGraph.buildDrawCommands (sceneGraph : SceneGraph)
    (frameState : FrameState) : SceneGraph :=
  let model := { sceneGraph._model with statistics := 0 }
  let sg := { sceneGraph with _model := model }
  let sg := sg.configurePipeline
  let modelPositionMin := Cartesian3.fromElements NUMBER_MAX_VALUE
    NUMBER_MAX_VALUE NUMBER_MAX_VALUE
  let modelPositionMax := Cartesian3.fromElements (-NUMBER_MAX_VALUE)
    (-NUMBER_MAX_VALUE) (-NUMBER_MAX_VALUE)
  let processed := processRuntimeNodes sg._model
    (modelPositionMin, modelPositionMax) sg._runtimeNodes
  let sg := { sg with _runtimeNodes := processed.2 }
  let modelSpaceSphere :=
    BoundingSphere.fromCornerPoints processed.1.1 processed.1.2
  let correctedSphere :=
    BoundingSphere.transformWithoutScale modelSpaceSphere
      sg._axisCorrectionMatrix
  let worldSphere :=
    BoundingSphere.transform correctedSphere sg._model.modelMatrix
  let model :=
    { sg._model with
      _boundingSphere :=
        some { worldSphere with
          radiusSq := worldSphere.radiusSq *
            (sg._model._clampedScale * sg._model._clampedScale) }
      _initialRadiusSq := worldSphere.radiusSq }
  { sg with _boundingSphere := some correctedSphere, _model := model }

/-- The total number of runtime primitives of a scene graph, counting every
primitive of every (defined) runtime node. -/
def SceneGraph.totalPrimitiveCount (sceneGraph : SceneGraph) : Nat :=
  (sceneGraph._runtimeNodes.map (fun entry =>
    match entry with
    | some runtimeNode => runtimeNode.runtimePrimitives.length
    | none => 0)).sum

/-- The number of runtime primitives of a scene graph that carry an
assigned draw command. -/
def SceneGraph.assignedDrawCommandCount (sceneGraph : SceneGraph) : Nat :=
  (sceneGraph._runtimeNodes.map (fun entry =>
    match entry with
    | some runtimeNode =>
      (runtimeNode.runtimePrimitives.filter (fun runtimePrimitive =>
        runtimePrimitive.drawCommand.isSome)).length
    | none => 0)).sum

/-- C10: for a `PositionPropertyArray` with no value array set (constructed
with undefined, or after `setValue(undefined)`), `getValueInReferenceFrame`
returns undefined (not an empty array, and without throwing) for every
defined time and reference frame, and `getValue` delegates to
`getValueInReferenceFrame` with the FIXED frame. -/
theorem positionPropertyArray_unset_value_getValue_undefined
    (p q : PositionPropertyArray) (t : JulianDate) (frame : ReferenceFrame)
    (rf : Option ReferenceFrame)
    (result : Option (List (Option Cartesian3)))
    (h : p._value = none) :
    (mkPositionPropertyArray none rf)._value = none ∧
    (q.setValue none)._value = none ∧
    p.getValueInReferenceFrame (some t) (some frame) result =
      Except.ok none ∧
    p.getValue (some t) result =
      p.getValueInReferenceFrame (some t) (some ReferenceFrame.FIXED)
        result := by
  refine ⟨rfl, rfl, ?_, rfl⟩
  simp [PositionPropertyArray.getValueInReferenceFrame, h]

/-- Witness for C10 at a concrete unset property array. -/
theorem positionPropertyArray_unset_value_getValue_undefined_witness :
    (mkPositionPropertyArray none none)._value = none ∧
    ((mkPositionPropertyArray none none).setValue none)._value = none ∧
    (mkPositionPropertyArray none none).getValueInReferenceFrame
      (some 0) (some ReferenceFrame.INERTIAL) none = Except.ok none ∧
    (mkPositionPropertyArray none none).getValue (some 0) none =
      (mkPositionPropertyArray none none).getValueInReferenceFrame
        (some 0) (some ReferenceFrame.FIXED) none :=
  positionPropertyArray_unset_value_getValue_undefined
    (mkPositionPropertyArray none none) (mkPositionPropertyArray none none)
    0 ReferenceFrame.INERTIAL none none rfl

/-- C2: `computeModelMatrix` composes the model matrix by multiplying, in
exactly this order, the placement matrix, the model-declared static
transform, the axis-correction matrix fixed at load time, and the uniform
scale factor; and `updateModelMatrix` re-runs that composition with the new
placement matrix. -/
theorem computeModelMatrix_composition_order (sceneGraph : SceneGraph)
    (modelMatrix : Matrix4) (frameState : FrameState) :
    (computeModelMatrix sceneGraph modelMatrix)._computedModelMatrix =
      Matrix4.multiplyByUniformScale
        (Matrix4.multiplyTransformation
          (Matrix4.multiplyTransformation modelMatrix
            sceneGraph._components.transform)
          sceneGraph._axisCorrectionMatrix)
        sceneGraph._model.computedScale ∧
    (SceneGraph.updateModelMatrix sceneGraph modelMatrix frameState)._computedModelMatrix =
      Matrix4.multiplyByUniformScale
        (Matrix4.multiplyTransformation
          (Matrix4.multiplyTransformation modelMatrix
            sceneGraph._components.transform)
          sceneGraph._axisCorrectionMatrix)
        sceneGraph._model.computedScale := by
  refine ⟨rfl, ?_⟩
  simp only [SceneGraph.updateModelMatrix]
  split
  · rfl
  · rfl

/-- C9: constructing the scene graph with a missing model or missing
model-components option fails immediately with an error; no scene-graph
state is produced. -/
theorem constructor_missing_input_fails (options : Option SceneGraphOptions)
    (h : options = none ∨
      (options.getD SceneGraphOptions.EMPTY_OBJECT).model = none ∨
      (options.getD SceneGraphOptions.EMPTY_OBJECT).modelComponents = none) :
    (∃ message,
      mkModelExperimentalSceneGraph options = Except.error message) ∧
    ∀ sg, mkModelExperimentalSceneGraph options ≠ Except.ok sg := by
  have herr : ∃ message,
      mkModelExperimentalSceneGraph options = Except.error message := by
    rcases h with h | h | h
    · subst h
      exact ⟨_, rfl⟩
    · simp only [mkModelExperimentalSceneGraph, h]
      exact ⟨_, rfl⟩
    · simp only [mkModelExperimentalSceneGraph, h]
      cases hm : (options.getD SceneGraphOptions.EMPTY_OBJECT).model
      · exact ⟨_, rfl⟩
      · exact ⟨_, rfl⟩
  obtain ⟨message, hmsg⟩ := herr
  exact ⟨⟨message, hmsg⟩, fun sg hsg => by
    rw [hmsg] at hsg
    exact Except.noConfusion hsg⟩

/-- Witness for C9 at the concrete options object that carries a model but
no model components. -/
theorem constructor_missing_input_fails_witness :
    (∃ message,
      mkModelExperimentalSceneGraph
        (some ⟨none, none⟩) = Except.error message) ∧
    ∀ sg, mkModelExperimentalSceneGraph (some ⟨none, none⟩) ≠
      Except.ok sg :=
  constructor_missing_input_fails (some ⟨none, none⟩) (Or.inr (Or.inl rfl))

/-- The four model flags `configurePipeline` reads. -/
structure ModelFlags where
  hasColor : Bool
  imageBasedLightingEnabled : Bool
  clippingEnabled : Bool
  hasNonDefaultSplit : Bool
deriving DecidableEq, Repr

/-- The pipeline-selection flags of a model, exactly as `configurePipeline`
evaluates them. -/
def Model.pipelineFlags (model : Model) : ModelFlags where
  hasColor := model.color.isSome
  imageBasedLightingEnabled := model.imageBasedLighting.enabled
  clippingEnabled := model.isClippingEnabled
  hasNonDefaultSplit :=
    match model.splitDirection with
    | some direction => decide (direction ≠ SplitDirection.NONE)
    | none => false

/-- The flag governing one model-level pipeline stage's presence. -/
def ModelFlags.governs (flags : ModelFlags) : PipelineStage → Bool
  | PipelineStage.ModelColorPipelineStage => flags.hasColor
  | PipelineStage.ImageBasedLightingPipelineStage =>
    flags.imageBasedLightingEnabled
  | PipelineStage.ModelClippingPlanesPipelineStage => flags.clippingEnabled
  | PipelineStage.ModelSplitterPipelineStage => flags.hasNonDefaultSplit

/-- The fixed model-level stage order: color, lighting, clipping, split. -/
def modelStageOrder : List PipelineStage :=
  [PipelineStage.ModelColorPipelineStage,
    PipelineStage.ImageBasedLightingPipelineStage,
    PipelineStage.ModelClippingPlanesPipelineStage,
    PipelineStage.ModelSplitterPipelineStage]

/-- The stage list built by `configurePipeline` is the fixed stage order
filtered by the model's pipeline flags. -/
theorem configurePipeline_eq_filter (sceneGraph : SceneGraph) :
    (sceneGraph.configurePipeline).modelPipelineStages =
      modelStageOrder.filter
        (fun s => sceneGraph._model.pipelineFlags.governs s) := by
  cases hc : sceneGraph._model.color <;>
    cases hi : sceneGraph._model.imageBasedLighting.enabled <;>
      cases hcl : sceneGraph._model.clippingPlanesEnabled <;>
        rcases hs : sceneGraph._model.splitDirection with _ | d <;>
          (try cases d) <;>
            simp [SceneGraph.configurePipeline, Model.pipelineFlags,
              ModelFlags.governs, modelStageOrder, Model.isClippingEnabled,
              hc, hi, hcl, hs]

/-- C4: `configurePipeline` includes the color-override stage iff a color
override is set, the image-based-lighting stage iff that feature is
enabled, the clipping-planes stage iff clipping is active, and the
split-view stage iff a non-default split direction is set, always in the
fixed order color, lighting, clipping, split; the list is a function of
those flags alone, rebuilding twice with unchanged flags yields the
identical ordered list, and toggling exactly one flag changes the list only
by that stage's presence. -/
theorem configurePipeline_stage_selection (sg other : SceneGraph)
    (s : PipelineStage)
    (hagree : ∀ t, t ≠ s →
      sg._model.pipelineFlags.governs t =
        other._model.pipelineFlags.governs t) :
    (∀ t, t ∈ (sg.configurePipeline).modelPipelineStages ↔
      sg._model.pipelineFlags.governs t = true) ∧
    List.Sublist (sg.configurePipeline).modelPipelineStages
      modelStageOrder ∧
    (∀ sg2 : SceneGraph,
      sg._model.pipelineFlags = sg2._model.pipelineFlags →
      (sg.configurePipeline).modelPipelineStages =
        (sg2.configurePipeline).modelPipelineStages) ∧
    ((sg.configurePipeline).configurePipeline).modelPipelineStages =
      (sg.configurePipeline).modelPipelineStages ∧
    (sg.configurePipeline).modelPipelineStages.filter
        (fun t => t ≠ s) =
      (other.configurePipeline).modelPipelineStages.filter
        (fun t => t ≠ s) := by
  refine ⟨?_, ?_, ?_, ?_, ?_⟩
  · intro t
    rw [configurePipeline_eq_filter, List.mem_filter]
    constructor
    · exact fun h => h.2
    · intro h
      refine ⟨?_, h⟩
      cases t <;> simp [modelStageOrder]
  · rw [configurePipeline_eq_filter]
    exact List.filter_sublist modelStageOrder
  · intro sg2 hflags
    rw [configurePipeline_eq_filter, configurePipeline_eq_filter, hflags]
  · rw [configurePipeline_eq_filter, configurePipeline_eq_filter]
    rfl
  · rw [configurePipeline_eq_filter, configurePipeline_eq_filter,
      List.filter_filter, List.filter_filter]
    refine List.filter_congr ?_
    intro t ht
    by_cases hts : t = s
    · subst hts
      simp
    · simp only [hagree t hts]

/-- A sample model for the concrete witnesses: image-based lighting on,
everything else off or default. -/
def sampleModel : Model where
  modelMatrix := Matrix4.IDENTITY
  computedScale := 1
  color := none
  imageBasedLighting := ⟨true⟩
  clippingPlanesEnabled := false
  splitDirection := some SplitDirection.NONE
  _projectTo2D := false
  backFaceCulling := true
  shadows := ShadowMode.ENABLED
  debugShowBoundingVolume := false
  statistics := 0
  _boundingSphere := none
  _initialRadiusSq := 0
  _clampedScale := 1

/-- Sample model components with no nodes. -/
def sampleComponents : Components where
  nodes := []
  scene := ⟨[]⟩
  skins := []
  upAxis := Axis.Z
  forwardAxis := Axis.Y
  transform := Matrix4.IDENTITY

/-- A sample scene-graph state with no runtime nodes. -/
def sampleSceneGraphEmpty : SceneGraph where
  _model := sampleModel
  _components := sampleComponents
  _pipelineStages := []
  _updateStages := []
  _runtimeNodes := []
  _rootNodes := []
  _skinnedNodes := []
  _runtimeSkins := []
  modelPipelineStages := []
  _boundingSphere := none
  _boundingSphere2D := none
  _computedModelMatrix := Matrix4.IDENTITY
  _computedModelMatrix2D := Matrix4.IDENTITY
  _axisCorrectionMatrix := Matrix4.IDENTITY

/-- The sample scene graph with the clipping flag toggled on. -/
def sampleSceneGraphClipping : SceneGraph :=
  { sampleSceneGraphEmpty with
    _model := { sampleModel with clippingPlanesEnabled := true } }

/-- Witness for C4: toggling the clipping flag between two concrete models
changes the stage list only by the clipping stage's presence. -/
theorem configurePipeline_stage_selection_witness :
    (PipelineStage.ImageBasedLightingPipelineStage ∈
        (sampleSceneGraphEmpty.configurePipeline).modelPipelineStages ↔
      sampleSceneGraphEmpty._model.pipelineFlags.governs
        PipelineStage.ImageBasedLightingPipelineStage = true) ∧
    (sampleSceneGraphEmpty.configurePipeline).modelPipelineStages.filter
        (fun t => t ≠ PipelineStage.ModelClippingPlanesPipelineStage) =
      (sampleSceneGraphClipping.configurePipeline).modelPipelineStages.filter
        (fun t => t ≠ PipelineStage.ModelClippingPlanesPipelineStage) := by
  have h := configurePipeline_stage_selection sampleSceneGraphEmpty
    sampleSceneGraphClipping PipelineStage.ModelClippingPlanesPipelineStage
    (by intro t ht; cases t <;> first | rfl | exact absurd rfl ht)
  exact ⟨h.1 _, h.2.2.2.2⟩

/-- The effect of folding `markRootNodeDirty` over a list of root indices:
the entry at an index in the list gets its dirty flag set, every other
entry is returned exactly as it was. -/
theorem foldl_markRootNodeDirty_getElem (roots : List Nat)
    (runtimeNodes : List (Option RuntimeNode)) (i : Nat) (rn : RuntimeNode)
    (h : runtimeNodes[i]? = some (some rn)) :
    (roots.foldl markRootNodeDirty runtimeNodes)[i]? =
      some (some { rn with _transformDirty :=
        if i ∈ roots then true else rn._transformDirty }) := by
  induction roots generalizing runtimeNodes rn with
  | nil => simpa using h
  | cons r rest ih =>
    rw [List.foldl_cons]
    by_cases hir : i = r
    · subst hir
      have hlt : i < runtimeNodes.length := (List.getElem?_eq_some.mp h).1
      have hset : (markRootNodeDirty runtimeNodes i)[i]? =
          some (some { rn with _transformDirty := true }) := by
        unfold markRootNodeDirty
        rw [h]
        exact List.getElem?_set_eq_of_lt _ hlt
      rw [ih _ _ hset]
      simp [List.mem_cons, ite_self]
    · have hpres : (markRootNodeDirty runtimeNodes r)[i]? =
          runtimeNodes[i]? := by
        unfold markRootNodeDirty
        cases hr : runtimeNodes[r]? with
        | none => rfl
        | some o =>
          cases o with
          | none => rfl
          | some x => exact List.getElem?_set_ne fun hri => hir hri.symm
      rw [ih _ _ (by rw [hpres, h])]
      simp [List.mem_cons, hir]

/-- C5: applying a new placement matrix via `updateModelMatrix` sets the
dirty flag of exactly the runtime nodes listed in the root-index list, and
returns every other runtime node unchanged (its dirty flag untouched);
descendants are not dirtied by this call. -/
theorem updateModelMatrix_marks_exactly_roots (sceneGraph : SceneGraph)
    (modelMatrix : Matrix4) (frameState : FrameState) (i : Nat)
    (rn : RuntimeNode)
    (h : sceneGraph._runtimeNodes[i]? = some (some rn)) :
    (sceneGraph.updateModelMatrix modelMatrix frameState)._runtimeNodes[i]? =
      some (some { rn with _transformDirty :=
        if i ∈ sceneGraph._rootNodes then true
        else rn._transformDirty }) := by
  unfold SceneGraph.updateModelMatrix
  split
  · exact foldl_markRootNodeDirty_getElem _ _ _ _ h
  · exact foldl_markRootNodeDirty_getElem _ _ _ _ h

/-- A sample childless source node with index 1 and one primitive. -/
def sampleSourceNode1 : SourceNode :=
  SourceNode.mk 1 Matrix4.IDENTITY [] [⟨⟨0, 0, 0⟩, ⟨1, 1, 1⟩⟩] none

/-- A sample root source node with index 0 and child `sampleSourceNode1`. -/
def sampleSourceNode0 : SourceNode :=
  SourceNode.mk 0 Matrix4.IDENTITY [sampleSourceNode1] [] none

/-- A sample runtime node wrapping `sampleSourceNode0`. -/
def sampleRuntimeNode0 : RuntimeNode :=
  mkModelExperimentalNode sampleSourceNode0 Matrix4.IDENTITY
    Matrix4.IDENTITY [1]

/-- A sample runtime node wrapping `sampleSourceNode1`. -/
def sampleRuntimeNode1 : RuntimeNode :=
  mkModelExperimentalNode sampleSourceNode1 Matrix4.IDENTITY
    Matrix4.IDENTITY []

/-- A sample scene graph with two runtime nodes of which node 0 is the only
declared root. -/
def sampleSceneGraphTwoNodes : SceneGraph :=
  { sampleSceneGraphEmpty with
    _runtimeNodes := [some sampleRuntimeNode0, some sampleRuntimeNode1]
    _rootNodes := [0] }

/-- A sample map projection whose basis conversion is the identity and
whose wgs84-to-2D matrix is constant. -/
def sampleMapProjection : MapProjection where
  basisTo2D := fun m => m
  wgs84To2DModelMatrix := fun _ => Matrix4.IDENTITY

/-- A sample frame state in the default 3D scene mode. -/
def sampleFrameState3D : FrameState where
  mode := SceneMode.SCENE3D
  mapProjection := sampleMapProjection

/-- A sample frame state in the 2D scene mode. -/
def sampleFrameState2D : FrameState where
  mode := SceneMode.SCENE2D
  mapProjection := sampleMapProjection

/-- Witness for C5: on the concrete two-node scene graph, `updateModelMatrix`
dirties root node 0 and returns node 1 unchanged. -/
theorem updateModelMatrix_marks_exactly_roots_witness :
    (sampleSceneGraphTwoNodes.updateModelMatrix Matrix4.IDENTITY
        sampleFrameState3D)._runtimeNodes[0]? =
      some (some { sampleRuntimeNode0 with _transformDirty :=
        if 0 ∈ sampleSceneGraphTwoNodes._rootNodes then true
        else sampleRuntimeNode0._transformDirty }) ∧
    (sampleSceneGraphTwoNodes.updateModelMatrix Matrix4.IDENTITY
        sampleFrameState3D)._runtimeNodes[1]? =
      some (some { sampleRuntimeNode1 with _transformDirty :=
        if 1 ∈ sampleSceneGraphTwoNodes._rootNodes then true
        else sampleRuntimeNode1._transformDirty }) :=
  ⟨updateModelMatrix_marks_exactly_roots sampleSceneGraphTwoNodes
      Matrix4.IDENTITY sampleFrameState3D 0 sampleRuntimeNode0 rfl,
    updateModelMatrix_marks_exactly_roots sampleSceneGraphTwoNodes
      Matrix4.IDENTITY sampleFrameState3D 1 sampleRuntimeNode1 rfl⟩

/-- A sample bounding sphere at the origin. -/
def sampleBoundingSphere : BoundingSphere := ⟨⟨0, 0, 0⟩, 1⟩

/-- The sample empty scene graph with a defined bounding sphere. -/
def sampleSceneGraphSphere : SceneGraph :=
  { sampleSceneGraphEmpty with _boundingSphere := some sampleBoundingSphere }

/-- C3: `updateModelMatrix` computes the secondary 2D composed matrix only
when the frame state's mode is not the default 3D mode; in that case, if
the translation of the composed model matrix is exactly zero the
origin-centered path is taken (the wgs84-to-2D matrix derived from the
bounding-sphere center, multiplied with the composed matrix), otherwise the
general basis-to-2D conversion of the composed matrix is used. -/
theorem updateModelMatrix_2d_path_selection (sceneGraph : SceneGraph)
    (modelMatrix : Matrix4) (frameState : FrameState) (bs : BoundingSphere)
    (hbs : sceneGraph._boundingSphere = some bs) :
    (frameState.mode = SceneMode.SCENE3D →
      (sceneGraph.updateModelMatrix modelMatrix
          frameState)._computedModelMatrix2D =
        sceneGraph._computedModelMatrix2D) ∧
    (frameState.mode ≠ SceneMode.SCENE3D →
      (Matrix4.getTranslation
            (computeModelMatrix sceneGraph modelMatrix)._computedModelMatrix =
          Cartesian3.ZERO →
        (sceneGraph.updateModelMatrix modelMatrix
            frameState)._computedModelMatrix2D =
          Matrix4.multiply
            (frameState.mapProjection.wgs84To2DModelMatrix bs.center)
            (computeModelMatrix sceneGraph
              modelMatrix)._computedModelMatrix) ∧
      (Matrix4.getTranslation
            (computeModelMatrix sceneGraph modelMatrix)._computedModelMatrix ≠
          Cartesian3.ZERO →
        (sceneGraph.updateModelMatrix modelMatrix
            frameState)._computedModelMatrix2D =
          frameState.mapProjection.basisTo2D
            (computeModelMatrix sceneGraph
              modelMatrix)._computedModelMatrix)) := by
  refine ⟨?_, ?_⟩
  · intro h3d
    simp [SceneGraph.updateModelMatrix, computeModelMatrix, h3d]
  · intro hmode
    constructor
    · intro htr
      simp only [SceneGraph.updateModelMatrix]
      rw [if_pos hmode]
      simp only [computeModelMatrix2D]
      rw [if_neg (by simp [Cartesian3.equals, htr])]
      simp [computeModelMatrix, hbs]
    · intro htr
      simp only [SceneGraph.updateModelMatrix]
      rw [if_pos hmode]
      simp only [computeModelMatrix2D]
      rw [if_pos (by simp [Cartesian3.equals, htr])]

/-- Witness for C3 at a concrete scene graph whose composed translation is
exactly zero, in 2D mode: the origin-centered path is taken; in 3D mode
the 2D matrix is untouched. -/
theorem updateModelMatrix_2d_path_selection_witness :
    (sampleSceneGraphSphere.updateModelMatrix Matrix4.IDENTITY
        sampleFrameState2D)._computedModelMatrix2D =
      Matrix4.multiply
        (sampleFrameState2D.mapProjection.wgs84To2DModelMatrix
          sampleBoundingSphere.center)
        (computeModelMatrix sampleSceneGraphSphere
          Matrix4.IDENTITY)._computedModelMatrix ∧
    (sampleSceneGraphSphere.updateModelMatrix Matrix4.IDENTITY
        sampleFrameState3D)._computedModelMatrix2D =
      sampleSceneGraphSphere._computedModelMatrix2D :=
  ⟨((updateModelMatrix_2d_path_selection sampleSceneGraphSphere
      Matrix4.IDENTITY sampleFrameState2D sampleBoundingSphere rfl).2
        (by decide)).1 (by
          norm_num [computeModelMatrix, sampleSceneGraphSphere,
            sampleSceneGraphEmpty, sampleComponents, sampleModel,
            Matrix4.multiplyTransformation, Matrix4.multiplyByUniformScale,
            Matrix4.getTranslation, Matrix4.IDENTITY, Cartesian3.ZERO]),
    (updateModelMatrix_2d_path_selection sampleSceneGraphSphere
      Matrix4.IDENTITY sampleFrameState3D sampleBoundingSphere rfl).1 rfl⟩

/-- C6: in the per-frame update with the animation flag set, joint matrices
are refreshed for all skinned nodes, except that the refresh is skipped
entirely when the frame state's mode is not the default 3D mode and the
model forces 2D projection; node update-stages and primitive update-stages
run in either case. -/
theorem update_joint_matrix_gating (sceneGraph : SceneGraph)
    (frameState : FrameState) (i : Nat) (rn : RuntimeNode)
    (hn : sceneGraph._runtimeNodes[i]? = some (some rn)) :
    ((frameState.mode ≠ SceneMode.SCENE3D ∧
        sceneGraph._model._projectTo2D = true) →
      ∀ k, UpdateEvent.jointMatrixUpdate k ∉
        sceneGraph.update frameState true) ∧
    (¬(frameState.mode ≠ SceneMode.SCENE3D ∧
        sceneGraph._model._projectTo2D = true) →
      ∀ k ∈ sceneGraph._skinnedNodes,
        UpdateEvent.jointMatrixUpdate k ∈
          sceneGraph.update frameState true) ∧
    (∀ s ∈ rn.updateStages,
      UpdateEvent.nodeStage i s ∈ sceneGraph.update frameState true) ∧
    (∀ j p, rn.runtimePrimitives[j]? = some p →
      ∀ s ∈ p.updateStages,
        UpdateEvent.primitiveStage i j s ∈
          sceneGraph.update frameState true) := by
  have hlt : i < sceneGraph._runtimeNodes.length :=
    (List.getElem?_eq_some.mp hn).1
  refine ⟨?_, ?_, ?_, ?_⟩
  · intro hdis k hk
    simp only [SceneGraph.update] at hk
    obtain ⟨a, _, hblock⟩ := List.mem_flatMap.mp hk
    split at hblock
    · rw [if_neg (fun hc => hc.2 hdis)] at hblock
      simp only [List.append_nil, List.mem_append, List.mem_map,
        List.mem_flatMap] at hblock
      rcases hblock with ⟨s, _, hev⟩ | ⟨jj, _, hev⟩
      · exact UpdateEvent.noConfusion hev
      · split at hev
        · simp only [List.mem_map] at hev
          obtain ⟨s, _, hev⟩ := hev
          exact UpdateEvent.noConfusion hev
        · simp at hev
    · simp at hblock
  · intro hen k hkmem
    simp only [SceneGraph.update]
    refine List.mem_flatMap.mpr ⟨i, List.mem_range.mpr hlt, ?_⟩
    simp only [hn]
    rw [if_pos ⟨trivial, hen⟩]
    simp only [SceneGraph.updateJointMatrices, List.mem_append,
      List.mem_map]
    exact Or.inl (Or.inr ⟨k, hkmem, rfl⟩)
  · intro s hs
    simp only [SceneGraph.update]
    refine List.mem_flatMap.mpr ⟨i, List.mem_range.mpr hlt, ?_⟩
    simp only [hn]
    simp only [List.mem_append, List.mem_map]
    exact Or.inl (Or.inl ⟨s, hs, rfl⟩)
  · intro j p hp s hs
    have hjlt : j < rn.runtimePrimitives.length :=
      (List.getElem?_eq_some.mp hp).1
    simp only [SceneGraph.update]
    refine List.mem_flatMap.mpr ⟨i, List.mem_range.mpr hlt, ?_⟩
    simp only [hn]
    simp only [List.mem_append, List.mem_map, List.mem_flatMap]
    refine Or.inr ⟨j, List.mem_range.mpr hjlt, ?_⟩
    simp only [hp, List.mem_map]
    exact ⟨s, hs, rfl⟩

/-- The sample two-node scene graph with node 1 recorded as skinned. -/
def sampleSceneGraphSkinned : SceneGraph :=
  { sampleSceneGraphTwoNodes with _skinnedNodes := [1] }

/-- Witness for C6: on the concrete skinned scene graph in 3D mode, the
per-frame update with animations on refreshes the joint matrices of
skinned node 1 and runs node update-stage 0 of node 0. -/
theorem update_joint_matrix_gating_witness :
    UpdateEvent.jointMatrixUpdate 1 ∈
      sampleSceneGraphSkinned.update sampleFrameState3D true ∧
    UpdateEvent.nodeStage 0 0 ∈
      sampleSceneGraphSkinned.update sampleFrameState3D true := by
  have h := update_joint_matrix_gating sampleSceneGraphSkinned
    sampleFrameState3D 0 sampleRuntimeNode0 rfl
  exact ⟨h.2.1 (by decide) 1 (by decide), h.2.2.1 0 (by decide)⟩

/-- The effect of `forEachRuntimePrimitive` on one runtime primitive: the
node at index `i` keeps its other fields, and its primitive at index `j`
becomes the callback's image. -/
theorem forEachRuntimePrimitive_getElem (sceneGraph : SceneGraph)
    (callback : RuntimePrimitive → RuntimePrimitive) (i j : Nat)
    (rn : RuntimeNode) (p : RuntimePrimitive)
    (hn : sceneGraph._runtimeNodes[i]? = some (some rn))
    (hp : rn.runtimePrimitives[j]? = some p) :
    (forEachRuntimePrimitive sceneGraph callback)._runtimeNodes[i]? =
      some (some { rn with
        runtimePrimitives := rn.runtimePrimitives.map callback }) ∧
    ({ rn with runtimePrimitives := rn.runtimePrimitives.map callback
      : RuntimeNode }).runtimePrimitives[j]? = some (callback p) := by
  constructor
  · simp [forEachRuntimePrimitive, List.getElem?_map, hn]
  · simp [List.getElem?_map, hp]

/-- Every primitive processed by the inner `buildDrawCommands` loop comes
out with an assigned draw command. -/
theorem processRuntimePrimitives_all_assigned (model : Model)
    (nodeTransform : Matrix4) (corners : Cartesian3 × Cartesian3)
    (ps : List RuntimePrimitive) :
    (((processRuntimePrimitives model nodeTransform corners ps).2.filter
      (fun runtimePrimitive => runtimePrimitive.drawCommand.isSome)).length) =
      ps.length := by
  induction ps generalizing corners with
  | nil => rfl
  | cons p rest ih =>
    simp [processRuntimePrimitives, processRuntimePrimitive,
      List.filter_cons, ih]

/-- The outer `buildDrawCommands` loop assigns a draw command to every
primitive of every node: counting assigned commands afterwards counts all
primitives. -/
theorem processRuntimeNodes_assigned_count (model : Model)
    (corners : Cartesian3 × Cartesian3) (ns : List (Option RuntimeNode)) :
    ((processRuntimeNodes model corners ns).2.map (fun entry =>
      match entry with
      | some runtimeNode =>
        (runtimeNode.runtimePrimitives.filter (fun runtimePrimitive =>
          runtimePrimitive.drawCommand.isSome)).length
      | none => 0)).sum =
    (ns.map (fun entry =>
      match entry with
      | some runtimeNode => runtimeNode.runtimePrimitives.length
      | none => 0)).sum := by
  induction ns generalizing corners with
  | nil => rfl
  | cons e rest ih =>
    cases e with
    | none => simp [processRuntimeNodes, ih]
    | some rn =>
      simp [processRuntimeNodes, processRuntimePrimitives_all_assigned, ih]

/-- C7: each bulk setter (back-face culling, shadow mode, debug bounding
volume) writes its field into the draw command of every runtime primitive
of every runtime node, leaving the command's other fields and the
primitive untouched otherwise; and the draw-command rebuild assigns a
command to every primitive, so the number of assigned commands equals the
total primitive count (2 for a model with 2 root nodes of one primitive
each). -/
theorem broadcast_setters_all_primitives (sceneGraph : SceneGraph) (b : Bool)
    (shadowMode : ShadowMode) (debugVolume : Bool) (frameState : FrameState)
    (i j : Nat) (rn : RuntimeNode) (p : RuntimePrimitive) (c : DrawCommand)
    (hn : sceneGraph._runtimeNodes[i]? = some (some rn))
    (hp : rn.runtimePrimitives[j]? = some p)
    (hc : p.drawCommand = some c) :
    (∃ rn2 p2,
      (sceneGraph.updateBackFaceCulling b)._runtimeNodes[i]? =
        some (some rn2) ∧
      rn2.runtimePrimitives[j]? = some p2 ∧
      p2.drawCommand = some { c with backFaceCulling := b } ∧
      p2.primitive = p.primitive) ∧
    (∃ rn2 p2,
      (sceneGraph.updateShadows shadowMode)._runtimeNodes[i]? =
        some (some rn2) ∧
      rn2.runtimePrimitives[j]? = some p2 ∧
      p2.drawCommand = some { c with shadows := shadowMode } ∧
      p2.primitive = p.primitive) ∧
    (∃ rn2 p2,
      (sceneGraph.updateShowBoundingVolume debugVolume)._runtimeNodes[i]? =
        some (some rn2) ∧
      rn2.runtimePrimitives[j]? = some p2 ∧
      p2.drawCommand = some { c with debugShowBoundingVolume := debugVolume } ∧
      p2.primitive = p.primitive) ∧
    (sceneGraph.buildDrawCommands frameState).assignedDrawCommandCount =
      sceneGraph.totalPrimitiveCount := by
  refine ⟨?_, ?_, ?_, ?_⟩
  · have h := forEachRuntimePrimitive_getElem sceneGraph
      (fun runtimePrimitive =>
        { runtimePrimitive with
          drawCommand := runtimePrimitive.drawCommand.map (fun drawCommand =>
            { drawCommand with backFaceCulling := b }) }) i j rn p hn hp
    exact ⟨_, _, h.1, h.2, by simp [hc], rfl⟩
  · have h := forEachRuntimePrimitive_getElem sceneGraph
      (fun runtimePrimitive =>
        { runtimePrimitive with
          drawCommand := runtimePrimitive.drawCommand.map (fun drawCommand =>
            { drawCommand with shadows := shadowMode }) }) i j rn p hn hp
    exact ⟨_, _, h.1, h.2, by simp [hc], rfl⟩
  · have h := forEachRuntimePrimitive_getElem sceneGraph
      (fun runtimePrimitive =>
        { runtimePrimitive with
          drawCommand := runtimePrimitive.drawCommand.map (fun drawCommand =>
            { drawCommand with debugShowBoundingVolume := debugVolume }) })
      i j rn p hn hp
    exact ⟨_, _, h.1, h.2, by simp [hc], rfl⟩
  · exact processRuntimeNodes_assigned_count _ _ _

/-- A sample source primitive. -/
def sampleSourcePrimitive : SourcePrimitive := ⟨⟨0, 0, 0⟩, ⟨1, 1, 1⟩⟩

/-- A sample draw command with default settings. -/
def sampleDrawCommand : DrawCommand :=
  ⟨false, ShadowMode.ENABLED, false⟩

/-- A sample runtime primitive that already carries a draw command. -/
def sampleRuntimePrimitiveWithCommand : RuntimePrimitive :=
  { mkModelExperimentalPrimitive sampleSourcePrimitive with
    drawCommand := some sampleDrawCommand }

/-- A sample root runtime node with index 0 and one primitive. -/
def sampleRootNodeA : RuntimeNode :=
  { mkModelExperimentalNode
      (SourceNode.mk 0 Matrix4.IDENTITY [] [sampleSourcePrimitive] none)
      Matrix4.IDENTITY Matrix4.IDENTITY [] with
    runtimePrimitives := [sampleRuntimePrimitiveWithCommand] }

/-- A sample root runtime node with index 1 and one primitive. -/
def sampleRootNodeB : RuntimeNode :=
  { mkModelExperimentalNode
      (SourceNode.mk 1 Matrix4.IDENTITY [] [sampleSourcePrimitive] none)
      Matrix4.IDENTITY Matrix4.IDENTITY [] with
    runtimePrimitives := [sampleRuntimePrimitiveWithCommand] }

/-- A sample scene graph with 2 root nodes, no skins, one primitive each. -/
def sampleSceneGraphTwoRoots : SceneGraph :=
  { sampleSceneGraphEmpty with
    _runtimeNodes := [some sampleRootNodeA, some sampleRootNodeB]
    _rootNodes := [0, 1] }

/-- Witness for C7: on the concrete 2-root scene graph, the back-face
culling broadcast sets the flag on both primitives' commands, and the
rebuild assigns exactly 2 draw commands. -/
theorem broadcast_setters_all_primitives_witness :
    (∃ rn2 p2,
      (sampleSceneGraphTwoRoots.updateBackFaceCulling true)._runtimeNodes[0]? =
        some (some rn2) ∧
      rn2.runtimePrimitives[0]? = some p2 ∧
      p2.drawCommand = some { sampleDrawCommand with backFaceCulling := true } ∧
      p2.primitive = sampleRuntimePrimitiveWithCommand.primitive) ∧
    (∃ rn2 p2,
      (sampleSceneGraphTwoRoots.updateBackFaceCulling true)._runtimeNodes[1]? =
        some (some rn2) ∧
      rn2.runtimePrimitives[0]? = some p2 ∧
      p2.drawCommand = some { sampleDrawCommand with backFaceCulling := true } ∧
      p2.primitive = sampleRuntimePrimitiveWithCommand.primitive) ∧
    (sampleSceneGraphTwoRoots.buildDrawCommands
        sampleFrameState3D).assignedDrawCommandCount = 2 := by
  have h0 := broadcast_setters_all_primitives sampleSceneGraphTwoRoots true
    ShadowMode.ENABLED false sampleFrameState3D 0 0 sampleRootNodeA
    sampleRuntimePrimitiveWithCommand sampleDrawCommand rfl rfl rfl
  have h1 := broadcast_setters_all_primitives sampleSceneGraphTwoRoots true
    ShadowMode.ENABLED false sampleFrameState3D 1 0 sampleRootNodeB
    sampleRuntimePrimitiveWithCommand sampleDrawCommand rfl rfl rfl
  refine ⟨h0.1, h1.1, ?_⟩
  rw [h0.2.2.2]
  rfl

/-- When no runtime node owns a primitive, the node loop of
`buildDrawCommands` leaves the corner pair and the node array exactly as
they were. -/
theorem processRuntimeNodes_no_primitives (model : Model)
    (corners : Cartesian3 × Cartesian3) (ns : List (Option RuntimeNode))
    (h : ∀ rn : RuntimeNode, some rn ∈ ns → rn.runtimePrimitives = []) :
    processRuntimeNodes model corners ns = (corners, ns) := by
  induction ns generalizing corners with
  | nil => rfl
  | cons e rest ih =>
    cases e with
    | none =>
      simp [processRuntimeNodes,
        ih corners (fun rn hm => h rn (List.mem_cons_of_mem _ hm))]
    | some rn =>
      have hrn := h rn (List.mem_cons_self _ _)
      simp only [processRuntimeNodes, hrn, processRuntimePrimitives,
        ih corners (fun rn2 hm => h rn2 (List.mem_cons_of_mem _ hm))]
      rw [← hrn]

/-- C8: for a model with zero primitives, the draw-command rebuild
completes: the min/max corner pair keeps its sentinel initialization
(plus/minus `Number.MAX_VALUE` per component), and the bounding sphere
derived from that corner pair is the degenerate sentinel sphere, centered
at the origin. -/
theorem buildDrawCommands_zero_primitives (sceneGraph : SceneGraph)
    (frameState : FrameState)
    (h : ∀ rn : RuntimeNode, some rn ∈ sceneGraph._runtimeNodes →
      rn.runtimePrimitives = []) :
    processRuntimeNodes { sceneGraph._model with statistics := 0 }
        (Cartesian3.fromElements NUMBER_MAX_VALUE NUMBER_MAX_VALUE
          NUMBER_MAX_VALUE,
         Cartesian3.fromElements (-NUMBER_MAX_VALUE) (-NUMBER_MAX_VALUE)
          (-NUMBER_MAX_VALUE)) sceneGraph._runtimeNodes =
      ((Cartesian3.fromElements NUMBER_MAX_VALUE NUMBER_MAX_VALUE
          NUMBER_MAX_VALUE,
        Cartesian3.fromElements (-NUMBER_MAX_VALUE) (-NUMBER_MAX_VALUE)
          (-NUMBER_MAX_VALUE)), sceneGraph._runtimeNodes) ∧
    (sceneGraph.buildDrawCommands frameState)._boundingSphere =
      some (BoundingSphere.transformWithoutScale
        (BoundingSphere.fromCornerPoints
          (Cartesian3.fromElements NUMBER_MAX_VALUE NUMBER_MAX_VALUE
            NUMBER_MAX_VALUE)
          (Cartesian3.fromElements (-NUMBER_MAX_VALUE) (-NUMBER_MAX_VALUE)
            (-NUMBER_MAX_VALUE)))
        sceneGraph._axisCorrectionMatrix) ∧
    (BoundingSphere.fromCornerPoints
        (Cartesian3.fromElements NUMBER_MAX_VALUE NUMBER_MAX_VALUE
          NUMBER_MAX_VALUE)
        (Cartesian3.fromElements (-NUMBER_MAX_VALUE) (-NUMBER_MAX_VALUE)
          (-NUMBER_MAX_VALUE))).center = Cartesian3.ZERO := by
  have hpn := processRuntimeNodes_no_primitives
    { sceneGraph._model with statistics := 0 }
    (Cartesian3.fromElements NUMBER_MAX_VALUE NUMBER_MAX_VALUE
      NUMBER_MAX_VALUE,
     Cartesian3.fromElements (-NUMBER_MAX_VALUE) (-NUMBER_MAX_VALUE)
      (-NUMBER_MAX_VALUE)) sceneGraph._runtimeNodes h
  refine ⟨hpn, ?_, ?_⟩
  · have hbs : (sceneGraph.buildDrawCommands frameState)._boundingSphere =
        some (BoundingSphere.transformWithoutScale
          (BoundingSphere.fromCornerPoints
            (processRuntimeNodes { sceneGraph._model with statistics := 0 }
              (Cartesian3.fromElements NUMBER_MAX_VALUE NUMBER_MAX_VALUE
                NUMBER_MAX_VALUE,
               Cartesian3.fromElements (-NUMBER_MAX_VALUE)
                (-NUMBER_MAX_VALUE) (-NUMBER_MAX_VALUE))
              sceneGraph._runtimeNodes).1.1
            (processRuntimeNodes { sceneGraph._model with statistics := 0 }
              (Cartesian3.fromElements NUMBER_MAX_VALUE NUMBER_MAX_VALUE
                NUMBER_MAX_VALUE,
               Cartesian3.fromElements (-NUMBER_MAX_VALUE)
                (-NUMBER_MAX_VALUE) (-NUMBER_MAX_VALUE))
              sceneGraph._runtimeNodes).1.2)
          sceneGraph._axisCorrectionMatrix) := rfl
    rw [hpn] at hbs
    exact hbs
  · show Cartesian3.midpoint _ _ = _
    simp only [Cartesian3.midpoint, Cartesian3.fromElements,
      Cartesian3.ZERO]
    norm_num

/-- Witness for C8: the concrete two-node scene graph owns no primitives;
its rebuild keeps the sentinel corners and yields the degenerate sphere. -/
theorem buildDrawCommands_zero_primitives_witness :
    (sampleSceneGraphTwoNodes.buildDrawCommands
        sampleFrameState3D)._boundingSphere =
      some (BoundingSphere.transformWithoutScale
        (BoundingSphere.fromCornerPoints
          (Cartesian3.fromElements NUMBER_MAX_VALUE NUMBER_MAX_VALUE
            NUMBER_MAX_VALUE)
          (Cartesian3.fromElements (-NUMBER_MAX_VALUE) (-NUMBER_MAX_VALUE)
            (-NUMBER_MAX_VALUE)))
        sampleSceneGraphTwoNodes._axisCorrectionMatrix) ∧
    (BoundingSphere.fromCornerPoints
        (Cartesian3.fromElements NUMBER_MAX_VALUE NUMBER_MAX_VALUE
          NUMBER_MAX_VALUE)
        (Cartesian3.fromElements (-NUMBER_MAX_VALUE) (-NUMBER_MAX_VALUE)
          (-NUMBER_MAX_VALUE))).center = Cartesian3.ZERO := by
  have h := buildDrawCommands_zero_primitives sampleSceneGraphTwoNodes
    sampleFrameState3D (by
      intro rn hm
      simp only [sampleSceneGraphTwoNodes, sampleSceneGraphEmpty,
        List.mem_cons, List.not_mem_nil, or_false] at hm
      rcases hm with hm | hm <;>
        (cases Option.some.inj hm; rfl))
  exact ⟨h.2.1, h.2.2⟩

mutual

/-- Traversal stores nodes with `List.set`, so it never changes the length
of the runtime-node array. -/
theorem traverseSceneGraph_length (sceneGraph : SceneGraph)
    (node : SourceNode) (transformToRoot : Matrix4) :
    ((traverseSceneGraph sceneGraph node
      transformToRoot).1)._runtimeNodes.length =
      sceneGraph._runtimeNodes.length := by
  cases node with
  | mk i tr c p s =>
    simp only [traverseSceneGraph, List.length_set]
    exact traverseChildrenNodes_length sceneGraph c _

/-- The child loop of the traversal never changes the length of the
runtime-node array. -/
theorem traverseChildrenNodes_length (sceneGraph : SceneGraph)
    (nodes : List SourceNode) (transformToRoot : Matrix4) :
    ((traverseChildrenNodes sceneGraph nodes
      transformToRoot).1)._runtimeNodes.length =
      sceneGraph._runtimeNodes.length := by
  cases nodes with
  | nil => rfl
  | cons child rest =>
    simp only [traverseChildrenNodes]
    rw [traverseChildrenNodes_length _ rest _,
      traverseSceneGraph_length sceneGraph child _]

end

mutual

/-- Traversal of a subtree touches no runtime-node entry whose index is
outside the subtree's declared indices. -/
theorem traverseSceneGraph_frame (sceneGraph : SceneGraph)
    (node : SourceNode) (transformToRoot : Matrix4) (j : Nat)
    (hj : j ∉ (subtreeNodes node).map SourceNode.index) :
    ((traverseSceneGraph sceneGraph node
      transformToRoot).1)._runtimeNodes[j]? =
      sceneGraph._runtimeNodes[j]? := by
  cases node with
  | mk i tr c p s =>
    rw [subtreeNodes] at hj
    simp only [List.map_append, List.mem_append, List.map_cons,
      List.map_nil, List.mem_cons, List.not_mem_nil, or_false, not_or,
      SourceNode.index] at hj
    simp only [traverseSceneGraph]
    rw [List.getElem?_set_ne (fun h => hj.2 h.symm)]
    exact traverseChildrenNodes_frame sceneGraph c _ j hj.1

/-- The child loop of the traversal touches no runtime-node entry whose
index is outside the forest's declared indices. -/
theorem traverseChildrenNodes_frame (sceneGraph : SceneGraph)
    (nodes : List SourceNode) (transformToRoot : Matrix4) (j : Nat)
    (hj : j ∉ (subtreeNodesList nodes).map SourceNode.index) :
    ((traverseChildrenNodes sceneGraph nodes
      transformToRoot).1)._runtimeNodes[j]? =
      sceneGraph._runtimeNodes[j]? := by
  cases nodes with
  | nil => rfl
  | cons child rest =>
    rw [subtreeNodesList] at hj
    simp only [List.map_append, List.mem_append, not_or] at hj
    simp only [traverseChildrenNodes]
    rw [traverseChildrenNodes_frame _ rest _ j hj.2,
      traverseSceneGraph_frame sceneGraph child _ j hj.1]

end

mutual

/-- Traversal of a subtree stores, for every node of the subtree, a
runtime node wrapping it at the runtime-array entry of its declared index
(assuming the indices are in range and are injective over the subtree). -/
theorem traverseSceneGraph_stores (sceneGraph : SceneGraph)
    (node : SourceNode) (transformToRoot : Matrix4)
    (hlen : ∀ x ∈ subtreeNodes node,
      x.index < sceneGraph._runtimeNodes.length)
    (hinj : ∀ a ∈ subtreeNodes node, ∀ b ∈ subtreeNodes node,
      a.index = b.index → a = b)
    (nd : SourceNode) (hnd : nd ∈ subtreeNodes node) :
    ∃ rn, ((traverseSceneGraph sceneGraph node
        transformToRoot).1)._runtimeNodes[nd.index]? =
      some (some rn) ∧ rn.node = nd := by
  cases node with
  | mk i tr c p s =>
    have hself : SourceNode.mk i tr c p s ∈
        subtreeNodes (SourceNode.mk i tr c p s) := by
      rw [subtreeNodes]
      exact List.mem_append_right _ (List.mem_singleton.mpr rfl)
    by_cases hni : nd.index = i
    · have hndeq : nd = SourceNode.mk i tr c p s :=
        hinj nd hnd _ hself (by simpa [SourceNode.index] using hni)
      have hlt : i <
          ((traverseChildrenNodes sceneGraph c
            (Matrix4.multiplyTransformation transformToRoot
              (getNodeTransform (SourceNode.mk i tr c p
                s)))).1)._runtimeNodes.length := by
        rw [traverseChildrenNodes_length]
        simpa [SourceNode.index] using hlen _ hself
      refine ⟨{ mkModelExperimentalNode (SourceNode.mk i tr c p s)
          (getNodeTransform (SourceNode.mk i tr c p s)) transformToRoot
          (traverseChildrenNodes sceneGraph c
            (Matrix4.multiplyTransformation transformToRoot
              (getNodeTransform (SourceNode.mk i tr c p s)))).2 with
        runtimePrimitives := p.map mkModelExperimentalPrimitive }, ?_, ?_⟩
      · simp only [traverseSceneGraph, hni]
        exact List.getElem?_set_eq_of_lt _ hlt
      · rw [hndeq]
        rfl
    · have hndc : nd ∈ subtreeNodesList c := by
        rw [subtreeNodes] at hnd
        rcases List.mem_append.mp hnd with h | h
        · exact h
        · exact absurd (by rw [List.mem_singleton.mp h]; rfl) hni
      have hlenc : ∀ x ∈ subtreeNodesList c,
          x.index < sceneGraph._runtimeNodes.length := fun x hx =>
        hlen x (by rw [subtreeNodes]; exact List.mem_append_left _ hx)
      have hinjc : ∀ a ∈ subtreeNodesList c, ∀ b ∈ subtreeNodesList c,
          a.index = b.index → a = b := fun a ha b hb =>
        hinj a (by rw [subtreeNodes]; exact List.mem_append_left _ ha)
          b (by rw [subtreeNodes]; exact List.mem_append_left _ hb)
      obtain ⟨rn, hrn, hn⟩ := traverseChildrenNodes_stores sceneGraph c
        (Matrix4.multiplyTransformation transformToRoot
          (getNodeTransform (SourceNode.mk i tr c p s)))
        hlenc hinjc nd hndc
      refine ⟨rn, ?_, hn⟩
      simp only [traverseSceneGraph]
      rw [List.getElem?_set_ne (fun h => hni h.symm)]
      exact hrn

/-- The child loop of the traversal stores every node of the forest at the
runtime-array entry of its declared index. -/
theorem traverseChildrenNodes_stores (sceneGraph : SceneGraph)
    (nodes : List SourceNode) (transformToRoot : Matrix4)
    (hlen : ∀ x ∈ subtreeNodesList nodes,
      x.index < sceneGraph._runtimeNodes.length)
    (hinj : ∀ a ∈ subtreeNodesList nodes, ∀ b ∈ subtreeNodesList nodes,
      a.index = b.index → a = b)
    (nd : SourceNode) (hnd : nd ∈ subtreeNodesList nodes) :
    ∃ rn, ((traverseChildrenNodes sceneGraph nodes
        transformToRoot).1)._runtimeNodes[nd.index]? =
      some (some rn) ∧ rn.node = nd := by
  cases nodes with
  | nil => simp [subtreeNodesList] at hnd
  | cons child rest =>
    have hmemL : ∀ x ∈ subtreeNodes child,
        x ∈ subtreeNodesList (child :: rest) := fun x hx => by
      rw [subtreeNodesList]
      exact List.mem_append_left _ hx
    have hmemR : ∀ x ∈ subtreeNodesList rest,
        x ∈ subtreeNodesList (child :: rest) := fun x hx => by
      rw [subtreeNodesList]
      exact List.mem_append_right _ hx
    by_cases hrest : nd ∈ subtreeNodesList rest
    · have hlen2 : ∀ x ∈ subtreeNodesList rest, x.index <
          ((traverseSceneGraph sceneGraph child
            transformToRoot).1)._runtimeNodes.length := by
        intro x hx
        rw [traverseSceneGraph_length]
        exact hlen x (hmemR x hx)
      have hinj2 : ∀ a ∈ subtreeNodesList rest,
          ∀ b ∈ subtreeNodesList rest, a.index = b.index → a = b :=
        fun a ha b hb => hinj a (hmemR a ha) b (hmemR b hb)
      obtain ⟨rn, hrn, hn⟩ := traverseChildrenNodes_stores
        (traverseSceneGraph sceneGraph child transformToRoot).1 rest
        transformToRoot hlen2 hinj2 nd hrest
      refine ⟨rn, ?_, hn⟩
      simp only [traverseChildrenNodes]
      exact hrn
    · have hchild : nd ∈ subtreeNodes child := by
        rw [subtreeNodesList] at hnd
        rcases List.mem_append.mp hnd with h | h
        · exact h
        · exact absurd h hrest
      have hlen1 : ∀ x ∈ subtreeNodes child,
          x.index < sceneGraph._runtimeNodes.length := fun x hx =>
        hlen x (hmemL x hx)
      have hinj1 : ∀ a ∈ subtreeNodes child, ∀ b ∈ subtreeNodes child,
          a.index = b.index → a = b := fun a ha b hb =>
        hinj a (hmemL a ha) b (hmemL b hb)
      obtain ⟨rn, hrn, hn⟩ := traverseSceneGraph_stores sceneGraph child
        transformToRoot hlen1 hinj1 nd hchild
      refine ⟨rn, ?_, hn⟩
      simp only [traverseChildrenNodes]
      rw [traverseChildrenNodes_frame
        (traverseSceneGraph sceneGraph child transformToRoot).1 rest
        transformToRoot nd.index ?_]
      · exact hrn
      · intro hmem
        obtain ⟨b, hb, hbi⟩ := List.mem_map.mp hmem
        have hbnd : b = nd := hinj b (hmemR b hb) nd (hmemL nd hchild) hbi
        rw [hbnd] at hb
        exact hrest hb

end

/-- The root loop never changes the length of the runtime-node array. -/
theorem initializeRootNodes_length (sceneGraph : SceneGraph)
    (rootNodes : List SourceNode) :
    (initializeRootNodes sceneGraph rootNodes)._runtimeNodes.length =
      sceneGraph._runtimeNodes.length := by
  induction rootNodes generalizing sceneGraph with
  | nil => rfl
  | cons root rest ih =>
    simp only [initializeRootNodes]
    rw [ih]
    exact traverseSceneGraph_length sceneGraph root Matrix4.IDENTITY

/-- The root loop touches no runtime-node entry whose index lies outside
the forest of declared roots. -/
theorem initializeRootNodes_frame (sceneGraph : SceneGraph)
    (rootNodes : List SourceNode) (j : Nat)
    (hj : j ∉ (subtreeNodesList rootNodes).map SourceNode.index) :
    (initializeRootNodes sceneGraph rootNodes)._runtimeNodes[j]? =
      sceneGraph._runtimeNodes[j]? := by
  induction rootNodes generalizing sceneGraph with
  | nil => rfl
  | cons root rest ih =>
    rw [subtreeNodesList] at hj
    simp only [List.map_append, List.mem_append, not_or] at hj
    simp only [initializeRootNodes]
    rw [ih _ hj.2]
    exact traverseSceneGraph_frame sceneGraph root Matrix4.IDENTITY j hj.1

/-- The root loop stores every reachable node at the runtime-array entry
of its declared index. -/
theorem initializeRootNodes_stores (sceneGraph : SceneGraph)
    (rootNodes : List SourceNode)
    (hlen : ∀ x ∈ subtreeNodesList rootNodes,
      x.index < sceneGraph._runtimeNodes.length)
    (hinj : ∀ a ∈ subtreeNodesList rootNodes,
      ∀ b ∈ subtreeNodesList rootNodes, a.index = b.index → a = b)
    (nd : SourceNode) (hnd : nd ∈ subtreeNodesList rootNodes) :
    ∃ rn, (initializeRootNodes sceneGraph
        rootNodes)._runtimeNodes[nd.index]? =
      some (some rn) ∧ rn.node = nd := by
  induction rootNodes generalizing sceneGraph with
  | nil => simp [subtreeNodesList] at hnd
  | cons root rest ih =>
    have hmemL : ∀ x ∈ subtreeNodes root,
        x ∈ subtreeNodesList (root :: rest) := fun x hx => by
      rw [subtreeNodesList]
      exact List.mem_append_left _ hx
    have hmemR : ∀ x ∈ subtreeNodesList rest,
        x ∈ subtreeNodesList (root :: rest) := fun x hx => by
      rw [subtreeNodesList]
      exact List.mem_append_right _ hx
    by_cases hrest : nd ∈ subtreeNodesList rest
    · have hlen2 : ∀ x ∈ subtreeNodesList rest, x.index <
          ((traverseSceneGraph sceneGraph root
            Matrix4.IDENTITY).1)._runtimeNodes.length := by
        intro x hx
        rw [traverseSceneGraph_length]
        exact hlen x (hmemR x hx)
      have hinj2 : ∀ a ∈ subtreeNodesList rest,
          ∀ b ∈ subtreeNodesList rest, a.index = b.index → a = b :=
        fun a ha b hb => hinj a (hmemR a ha) b (hmemR b hb)
      obtain ⟨rn, hrn, hn⟩ := ih
        { (traverseSceneGraph sceneGraph root Matrix4.IDENTITY).1 with
          _rootNodes :=
            (traverseSceneGraph sceneGraph root
              Matrix4.IDENTITY).1._rootNodes ++
              [(traverseSceneGraph sceneGraph root Matrix4.IDENTITY).2] }
        hlen2 hinj2 hrest
      exact ⟨rn, by simp only [initializeRootNodes]; exact hrn, hn⟩
    · have hroot : nd ∈ subtreeNodes root := by
        rw [subtreeNodesList] at hnd
        rcases List.mem_append.mp hnd with h | h
        · exact h
        · exact absurd h hrest
      have hlen1 : ∀ x ∈ subtreeNodes root,
          x.index < sceneGraph._runtimeNodes.length := fun x hx =>
        hlen x (hmemL x hx)
      have hinj1 : ∀ a ∈ subtreeNodes root, ∀ b ∈ subtreeNodes root,
          a.index = b.index → a = b := fun a ha b hb =>
        hinj a (hmemL a ha) b (hmemL b hb)
      obtain ⟨rn, hrn, hn⟩ := traverseSceneGraph_stores sceneGraph root
        Matrix4.IDENTITY hlen1 hinj1 nd hroot
      refine ⟨rn, ?_, hn⟩
      simp only [initializeRootNodes]
      rw [initializeRootNodes_frame _ rest nd.index ?_]
      · exact hrn
      · intro hmem
        obtain ⟨b, hb, hbi⟩ := List.mem_map.mp hmem
        have hbnd : b = nd := hinj b (hmemR b hb) nd (hmemL nd hroot) hbi
        rw [hbnd] at hb
        exact hrest hb

/-- One skin-resolution step never changes the length of the runtime-node
array. -/
theorem resolveSkinnedNode_length (sceneGraph : SceneGraph) (k : Nat) :
    (resolveSkinnedNode sceneGraph k)._runtimeNodes.length =
      sceneGraph._runtimeNodes.length := by
  unfold resolveSkinnedNode
  split
  · split
    · exact List.length_set _ _ _
    · rfl
  · rfl

/-- One skin-resolution step keeps every entry a defined runtime node
wrapping the same source node. -/
theorem resolveSkinnedNode_node (sceneGraph : SceneGraph) (k j : Nat)
    (rn : RuntimeNode)
    (h : sceneGraph._runtimeNodes[j]? = some (some rn)) :
    ∃ rn2, (resolveSkinnedNode sceneGraph k)._runtimeNodes[j]? =
      some (some rn2) ∧ rn2.node = rn.node := by
  unfold resolveSkinnedNode
  split
  · rename_i skinnedNode heq
    split
    · by_cases hjk : j = k
      · subst hjk
        have hrn : skinnedNode = rn := by
          rw [h] at heq
          exact (Option.some.inj (Option.some.inj heq)).symm
        have hlt : j < sceneGraph._runtimeNodes.length :=
          (List.getElem?_eq_some.mp h).1
        refine ⟨_, List.getElem?_set_eq_of_lt _ hlt, ?_⟩
        rw [hrn]
        rfl
      · exact ⟨rn, by
          rw [List.getElem?_set_ne (fun hkj => hjk hkj.symm)]
          exact h, rfl⟩
    · exact ⟨rn, h, rfl⟩
  · exact ⟨rn, h, rfl⟩

/-- Folding the skin-resolution step over any index list preserves the
length of the runtime-node array. -/
theorem foldl_resolveSkinnedNode_length (ks : List Nat)
    (sceneGraph : SceneGraph) :
    (ks.foldl resolveSkinnedNode sceneGraph)._runtimeNodes.length =
      sceneGraph._runtimeNodes.length := by
  induction ks generalizing sceneGraph with
  | nil => rfl
  | cons k rest ih =>
    rw [List.foldl_cons, ih, resolveSkinnedNode_length]

/-- Folding the skin-resolution step over any index list keeps every entry
a defined runtime node wrapping the same source node. -/
theorem foldl_resolveSkinnedNode_node (ks : List Nat)
    (sceneGraph : SceneGraph) (j : Nat) (rn : RuntimeNode)
    (h : sceneGraph._runtimeNodes[j]? = some (some rn)) :
    ∃ rn2, (ks.foldl resolveSkinnedNode
        sceneGraph)._runtimeNodes[j]? = some (some rn2) ∧
      rn2.node = rn.node := by
  induction ks generalizing sceneGraph rn with
  | nil => exact ⟨rn, h, rfl⟩
  | cons k rest ih =>
    obtain ⟨rn1, h1, hn1⟩ := resolveSkinnedNode_node sceneGraph k j rn h
    obtain ⟨rn2, h2, hn2⟩ := ih (resolveSkinnedNode sceneGraph k) rn1 h1
    exact ⟨rn2, h2, hn2.trans hn1⟩

/-- After `initialize`, the runtime-node array has exactly one slot per
source node, and every node reachable from a declared root is stored at the
entry of its declared index, wrapped in a runtime node. -/
theorem initializeSceneGraph_indexing (sceneGraph : SceneGraph)
    (hcoh : ∀ nd ∈ subtreeNodesList sceneGraph._components.scene.nodes,
      nd.index < sceneGraph._components.nodes.length ∧
        sceneGraph._components.nodes[nd.index]? = some nd) :
    (initializeSceneGraph sceneGraph)._runtimeNodes.length =
      sceneGraph._components.nodes.length ∧
    ∀ nd ∈ subtreeNodesList sceneGraph._components.scene.nodes,
      ∃ rn, (initializeSceneGraph
          sceneGraph)._runtimeNodes[nd.index]? =
        some (some rn) ∧ rn.node = nd := by
  have hinj : ∀ a ∈ subtreeNodesList sceneGraph._components.scene.nodes,
      ∀ b ∈ subtreeNodesList sceneGraph._components.scene.nodes,
      a.index = b.index → a = b := by
    intro a ha b hb hab
    have h1 := (hcoh a ha).2
    have h2 := (hcoh b hb).2
    rw [hab] at h1
    exact Option.some.inj (h1.symm.trans h2)
  have hlen1 : ∀ x ∈ subtreeNodesList sceneGraph._components.scene.nodes,
      x.index < (List.replicate sceneGraph._components.nodes.length
        (none : Option RuntimeNode)).length := by
    intro x hx
    rw [List.length_replicate]
    exact (hcoh x hx).1
  constructor
  · show (List.foldl resolveSkinnedNode _ _)._runtimeNodes.length = _
    rw [foldl_resolveSkinnedNode_length]
    show (initializeRootNodes _ _)._runtimeNodes.length = _
    rw [initializeRootNodes_length]
    exact List.length_replicate _ _
  · intro nd hnd
    obtain ⟨rn, hrn, hn⟩ := initializeRootNodes_stores
      { computeModelMatrix sceneGraph sceneGraph._model.modelMatrix with
        _runtimeNodes := List.replicate sceneGraph._components.nodes.length
          none }
      sceneGraph._components.scene.nodes hlen1 hinj nd hnd
    obtain ⟨rn2, hrn2, hn2⟩ := foldl_resolveSkinnedNode_node
      (initializeRootNodes
        { computeModelMatrix sceneGraph sceneGraph._model.modelMatrix with
          _runtimeNodes := List.replicate
            sceneGraph._components.nodes.length none }
        sceneGraph._components.scene.nodes)._skinnedNodes
      { initializeRootNodes
          { computeModelMatrix sceneGraph
              sceneGraph._model.modelMatrix with
            _runtimeNodes := List.replicate
              sceneGraph._components.nodes.length none }
          sceneGraph._components.scene.nodes with
        _runtimeSkins :=
          (initializeRootNodes
            { computeModelMatrix sceneGraph
                sceneGraph._model.modelMatrix with
              _runtimeNodes := List.replicate
                sceneGraph._components.nodes.length none }
            sceneGraph._components.scene.nodes)._runtimeSkins ++
            sceneGraph._components.skins.map mkModelExperimentalSkin }
      nd.index rn hrn
    exact ⟨rn2, hrn2, hn2.trans hn⟩

/-- C1: after scene-graph construction from a model whose source node list
has length n (each node carrying its position in that list as its index),
the runtime-node array has length n, and every node reachable from a
declared root is stored in that array at the index it carries, wrapped in
its runtime node. -/
theorem sceneGraph_runtimeNodes_indexing (model : Model)
    (comps : Components) (sg : SceneGraph)
    (hok : mkModelExperimentalSceneGraph
      (some ⟨some model, some comps⟩) = Except.ok sg)
    (hcoh : ∀ nd ∈ subtreeNodesList comps.scene.nodes,
      nd.index < comps.nodes.length ∧
        comps.nodes[nd.index]? = some nd) :
    sg._runtimeNodes.length = comps.nodes.length ∧
    ∀ nd ∈ subtreeNodesList comps.scene.nodes,
      ∃ rn, sg._runtimeNodes[nd.index]? = some (some rn) ∧
        rn.node = nd := by
  have hini : initializeSceneGraph
      { _model := model
        _components := comps
        _pipelineStages := []
        _updateStages := []
        _runtimeNodes := []
        _rootNodes := []
        _skinnedNodes := []
        _runtimeSkins := []
        modelPipelineStages := []
        _boundingSphere := none
        _boundingSphere2D := none
        _computedModelMatrix := Matrix4.clone Matrix4.IDENTITY
        _computedModelMatrix2D := Matrix4.clone Matrix4.IDENTITY
        _axisCorrectionMatrix :=
          getAxisCorrectionMatrix comps.upAxis comps.forwardAxis } = sg :=
    Except.ok.inj hok
  have h := initializeSceneGraph_indexing
    { _model := model
      _components := comps
      _pipelineStages := []
      _updateStages := []
      _runtimeNodes := []
      _rootNodes := []
      _skinnedNodes := []
      _runtimeSkins := []
      modelPipelineStages := []
      _boundingSphere := none
      _boundingSphere2D := none
      _computedModelMatrix := Matrix4.clone Matrix4.IDENTITY
      _computedModelMatrix2D := Matrix4.clone Matrix4.IDENTITY
      _axisCorrectionMatrix :=
        getAxisCorrectionMatrix comps.upAxis comps.forwardAxis } hcoh
  rw [hini] at h
  exact h

/-- Sample model components whose two nodes carry their positions as
indices, with node 0 the declared root owning node 1 as child. -/
def sampleIndexedComponents : Components where
  nodes := [sampleSourceNode0, sampleSourceNode1]
  scene := ⟨[sampleSourceNode0]⟩
  skins := []
  upAxis := Axis.Z
  forwardAxis := Axis.Y
  transform := Matrix4.IDENTITY

/-- The scene graph the constructor builds from the sample model and the
sample indexed components. -/
def sampleConstructedSceneGraph : SceneGraph :=
  initializeSceneGraph
    { _model := sampleModel
      _components := sampleIndexedComponents
      _pipelineStages := []
      _updateStages := []
      _runtimeNodes := []
      _rootNodes := []
      _skinnedNodes := []
      _runtimeSkins := []
      modelPipelineStages := []
      _boundingSphere := none
      _boundingSphere2D := none
      _computedModelMatrix := Matrix4.clone Matrix4.IDENTITY
      _computedModelMatrix2D := Matrix4.clone Matrix4.IDENTITY
      _axisCorrectionMatrix :=
        getAxisCorrectionMatrix sampleIndexedComponents.upAxis
          sampleIndexedComponents.forwardAxis }

/-- Witness for C1 on the concrete two-node tree: the constructed
runtime-node array has length 2 and stores each reachable node at its
declared index. -/
theorem sceneGraph_runtimeNodes_indexing_witness :
    sampleConstructedSceneGraph._runtimeNodes.length = 2 ∧
    (∃ rn, sampleConstructedSceneGraph._runtimeNodes[
        sampleSourceNode0.index]? = some (some rn) ∧
      rn.node = sampleSourceNode0) ∧
    (∃ rn, sampleConstructedSceneGraph._runtimeNodes[
        sampleSourceNode1.index]? = some (some rn) ∧
      rn.node = sampleSourceNode1) := by
  have h := sceneGraph_runtimeNodes_indexing sampleModel
    sampleIndexedComponents sampleConstructedSceneGraph rfl
    (by
      intro nd hnd
      have hmem : nd = sampleSourceNode1 ∨ nd = sampleSourceNode0 := by
        simpa [sampleIndexedComponents, sampleSourceNode0,
          sampleSourceNode1, subtreeNodesList, subtreeNodes] using hnd
      rcases hmem with h | h <;> subst h <;> exact ⟨by decide, rfl⟩)
  refine ⟨h.1.trans rfl, ?_, ?_⟩
  · exact h.2 sampleSourceNode0 (by
      simp [sampleIndexedComponents, sampleSourceNode0, sampleSourceNode1,
        subtreeNodesList, subtreeNodes])
  · exact h.2 sampleSourceNode1 (by
      simp [sampleIndexedComponents, sampleSourceNode0, sampleSourceNode1,
        subtreeNodesList, subtreeNodes])
